import Mathlib

/-!
# Verification of the RM Pro Forma projection engine

This file gives a shallow embedding, over exact rationals, of the projection
engine in `Backend-Flask/RMProForma_Calculations.py`: the month-by-month
rollforward (`RMProFormaModel._generate_monthly_schedule` and the per-month
calculation methods), the annual aggregation (`_generate_annual_summary`),
the payback computation (`_calculate_cumulative_payback`), the yield-curve
construction (`_initialize_yield_curves`), and the input-validation layer
(`validate_inputs`, `parse_date`, `parse_percentage`, `parse_number`,
and the wrapping `calculate_pro_forma` entry point).

Python floats are modelled as exact rationals (`ℚ`); all balance and income
recurrences in the source are plain field arithmetic, so the ℚ model computes
the same values the float code approximates.

Because `Rat.add`, `Rat.mul`, `Rat.sub` and `Rat.inv` are `@[irreducible]`,
the model is written with kernel-computable wrappers (`radd`, `rmul`, `rsub`,
`rdiv`, `rpow`) built from `mkRat`; the bridge theorems `radd_eq` … `rpow_eq`
prove each wrapper equal to the corresponding field operation, so theorem
statements can use the ordinary `+ - * / ^` notation.
-/

/-- Kernel-computable addition on `ℚ` (same normal form as `Rat.add_def'`). -/
def radd (a b : ℚ) : ℚ := mkRat (a.num * (b.den : ℤ) + b.num * (a.den : ℤ)) (a.den * b.den)

/-- Kernel-computable subtraction on `ℚ` (same normal form as `Rat.sub_def'`). -/
def rsub (a b : ℚ) : ℚ := mkRat (a.num * (b.den : ℤ) - b.num * (a.den : ℤ)) (a.den * b.den)

/-- Kernel-computable multiplication on `ℚ`. -/
def rmul (a b : ℚ) : ℚ := mkRat (a.num * b.num) (a.den * b.den)

/-- Kernel-computable inverse on `ℚ` (with `rinv 0 = 0`, as for `Rat.inv`). -/
def rinv (a : ℚ) : ℚ := Rat.divInt (a.den : ℤ) a.num

/-- Kernel-computable division on `ℚ` (Python `/` on nonzero denominators). -/
def rdiv (a b : ℚ) : ℚ := rmul a (rinv b)

/-- Kernel-computable power on `ℚ` with a natural exponent (Python `**`). -/
def rpow (a : ℚ) : ℕ → ℚ
  | 0 => 1
  | n + 1 => rmul (rpow a n) a

/-- A (proleptic Gregorian) calendar date, as compared and stored by Python
`datetime.date` / `pandas.Timestamp` values: ordering is lexicographic on
(year, month, day). -/
structure Date where
  year : ℤ
  month : ℤ
  day : ℤ
  deriving DecidableEq

/-- Python `<` on dates: strict lexicographic order. -/
def Date.lt (a b : Date) : Prop :=
  a.year < b.year ∨ (a.year = b.year ∧ (a.month < b.month ∨ (a.month = b.month ∧ a.day < b.day)))

/-- Python `<=` on dates. -/
def Date.le (a b : Date) : Prop := Date.lt a b ∨ a = b

instance (a b : Date) : Decidable (Date.lt a b) :=
  inferInstanceAs (Decidable (_ ∨ _))

instance (a b : Date) : Decidable (Date.le a b) :=
  inferInstanceAs (Decidable (_ ∨ _))

/-- Absolute month number of a date (used to mirror the source's
`(a.year - b.year) * 12 + (a.month - b.month)` month arithmetic). -/
def monthIndex (d : Date) : ℤ := 12 * d.year + (d.month - 1)

/-- The month-start date of an absolute month number (day = 1). -/
def monthStart (k : ℤ) : Date := ⟨k.ediv 12, k.emod 12 + 1, 1⟩

/-- `(date.year - base.year) * 12 + (date.month - base.month)`: the expression
the source uses for `months_since_hire` and `months_since_production`. -/
def monthDiff (d base : Date) : ℤ := (d.year - base.year) * 12 + (d.month - base.month)

/-- Gregorian leap-year test. -/
def isLeapYear (y : ℤ) : Prop := y.emod 4 = 0 ∧ (y.emod 100 ≠ 0 ∨ y.emod 400 = 0)

instance (y : ℤ) : Decidable (isLeapYear y) := inferInstanceAs (Decidable (_ ∧ _))

/-- Days in a calendar month. -/
def daysInMonth (y m : ℤ) : ℤ :=
  if m = 2 then (if isLeapYear y then 29 else 28)
  else if m = 4 ∨ m = 6 ∨ m = 9 ∨ m = 11 then 30
  else 31

/-- `date + relativedelta(years = n)` / `pd.DateOffset(years = n)`: same month
and day, `n` years later, with the day clamped into the target month
(Feb 29 → Feb 28 on non-leap years). -/
def addYears (d : Date) (n : ℤ) : Date :=
  ⟨d.year + n, d.month, min d.day (daysInMonth (d.year + n) d.month)⟩

/-- Day number of a date (days since 1970-01-01, Hinnant's `days_from_civil`
algorithm); models the `.days` of a `pandas.Timedelta` between two dates. -/
def Date.toDayNumber (d : Date) : ℤ :=
  let y : ℤ := if d.month ≤ 2 then d.year - 1 else d.year
  let era : ℤ := y.fdiv 400
  let yoe : ℤ := y - era * 400
  let mp : ℤ := (d.month + 9).emod 12
  let doy : ℤ := (153 * mp + 2).ediv 5 + d.day - 1
  let doe : ℤ := yoe * 365 + yoe.ediv 4 - yoe.ediv 100 + doy
  era * 146097 + doe - 719468

/-- Absolute month number of the first month-start date `≥ start` (the first
entry of a month-start `pd.date_range` beginning at `start`). -/
def rangeStartIndex (start : Date) : ℤ :=
  if start.day ≤ 1 then monthIndex start else monthIndex start + 1

/-- `pd.date_range(start, end, freq = 'MS')`: all month-start dates `d` with
`start ≤ d ≤ end`, in increasing order. -/
def dateRangeMS (start stop : Date) : List Date :=
  (List.range (monthIndex stop - rangeStartIndex start + 1).toNat).map
    (fun i => monthStart (rangeStartIndex start + Int.ofNat i))

/-- One year's `annualProduction` entry (`{'loans': …, 'deposits': …}`). -/
structure ProductionYear where
  loans : ℚ
  deposits : ℚ
  deriving DecidableEq

/-- One year's `goingOnYields` entry (`{'loans': …, 'lines': …, 'deposits': …}`). -/
structure YieldYear where
  loans : ℚ
  lines : ℚ
  deposits : ℚ
  deriving DecidableEq

/-- The validated model state of `RMProFormaModel`: `self.inputs` after
`validate_inputs` has run (dates parsed; every percentage field divided by
100, so stored as a fraction), plus the attributes set in `__init__`.

`annualProduction` and `goingOnYields` are modelled as functions of the year
index; the source indexes 5-element lists, and every caller clamps the index
with `min(months_since_production // 12, 4)`, so only indices 0–4 are read.

`offGridRate` models the cubic-spline interpolation of `YieldCurve.get_rate`
at tenors that are NOT grid points: an interpolating spline passes through its
data points, so at grid tenors the rate is read from the constructed table
(see `getRate`), and the off-grid behaviour is an opaque parameter (every
claim evaluates the curve at grid tenors only). -/
structure Config where
  rmHireDate : Date
  firstProductionDate : Date
  annualProduction : ℤ → ProductionYear
  goingOnYields : ℤ → YieldYear
  loanVsLinePercentage : ℚ
  lineUtilizationPercentage : ℚ
  originationFeePercentage : ℚ
  unusedCommitmentFeePercentage : ℚ
  salary : ℚ
  annualMeritIncrease : ℚ
  discretionaryExpenses : ℚ
  deferredCostsPerLoan : ℚ
  averageLifeLoans : ℚ
  averageLifeLines : ℚ
  prepayPercentageOfBalance : ℚ
  incentiveCompensationPercentage : ℚ
  avgLoanExposureAtOrigination : ℚ
  indirectCostsPerLoan : ℚ
  offGridRate : ℤ → ℚ → ℚ

/-- `self.end_date = self.first_production_date + relativedelta(years=5)`. -/
def endDate (cfg : Config) : Date := addYears cfg.firstProductionDate 5

/-- `self.dates = pd.date_range(start=self.rm_hire_date, end=self.end_date, freq='MS')`. -/
def scheduleDates (cfg : Config) : List Date := dateRangeMS cfg.rmHireDate (endDate cfg)

/-- The result dict of `_calculate_loan_balance`. -/
structure LoanDetails where
  monthly_production : ℚ
  prepayment_amount : ℚ
  scheduled_amortization : ℚ
  new_balance : ℚ

/-- The result dict of `_calculate_line_balance`. -/
structure LineDetails where
  monthly_production : ℚ
  prepayment_amount : ℚ
  utilization_production : ℚ
  new_balance : ℚ

/-- One row of the monthly schedule DataFrame: every column written by
`_generate_monthly_schedule`, plus the row's index date.  `efficiency_rat`
models the `efficiency_ratio` column, whose value can be the float `inf`
(when the revenue denominator is ≤ 0): `none` stands for `inf`. -/
structure Row where
  date : Date
  loan_balance : ℚ
  line_balance : ℚ
  deposit_balance : ℚ
  interest_income_loans : ℚ
  interest_income_lines : ℚ
  interest_expense : ℚ
  non_interest_income : ℚ
  non_interest_expense : ℚ
  provision_expense : ℚ
  net_income : ℚ
  cumulative_income : ℚ
  cumulative_expenses : ℚ
  cumulative_profit : ℚ
  fas91_balance : ℚ
  efficiency_rat : Option ℚ
  origination_fees : ℚ
  unused_commitment_fees : ℚ
  salary_expense : ℚ
  incentive_compensation_expense : ℚ
  benefits_expense : ℚ
  discretionary_expense : ℚ
  total_assets : ℚ
  total_liabilities : ℚ
  total_equity : ℚ
  loan_monthly_production : ℚ
  loan_prepayment_amount : ℚ
  loan_scheduled_amortization : ℚ
  line_monthly_production : ℚ
  line_prepayment_amount : ℚ
  line_utilization_production : ℚ
  deferred_origination_fees : ℚ
  deferred_costs : ℚ
  deferred_cost_amortization : ℚ
  indirect_costs : ℚ
  deriving DecidableEq

/-- `year = min(months_since_production // 12, 4)`, the clamped production-year
index appearing in every production-month method. -/
def productionYearIndex (cfg : Config) (date : Date) : ℤ :=
  min ((monthDiff date cfg.firstProductionDate).ediv 12) 4

/-- `monthly_production = self.inputs['annualProduction'][year]['loans'] / 12.0`. -/
def monthlyLoanProduction (cfg : Config) (year : ℤ) : ℚ :=
  rdiv (cfg.annualProduction year).loans 12

/-- `annualProduction[year]['loans'] * loanVsLinePercentage / (100 - loanVsLinePercentage) / 12.0`
(the line-production expression, exactly as in `_calculate_line_balance`,
`_calculate_deferred_fees_and_costs` and `_calculate_unused_commitment_fees`;
note the literal `100` even though `loanVsLinePercentage` was divided by 100
during validation). -/
def monthlyLineProduction (cfg : Config) (year : ℤ) : ℚ :=
  rdiv (rdiv (rmul (cfg.annualProduction year).loans cfg.loanVsLinePercentage)
      (rsub 100 cfg.loanVsLinePercentage)) 12

/-- `total_production = monthly_loan_production + monthly_line_production`. -/
def totalProductionYear (cfg : Config) (year : ℤ) : ℚ :=
  radd (monthlyLoanProduction cfg year) (monthlyLineProduction cfg year)

/-- `new_origination_fees = total_production * originationFeePercentage`. -/
def newOriginationFeesYear (cfg : Config) (year : ℤ) : ℚ :=
  rmul (totalProductionYear cfg year) cfg.originationFeePercentage

/-- `new_direct_costs = (total_production / avgLoanExposureAtOrigination) * direct_cost_per_loan`. -/
def newDirectCostsYear (cfg : Config) (year : ℤ) : ℚ :=
  rmul (rdiv (totalProductionYear cfg year) cfg.avgLoanExposureAtOrigination)
    cfg.deferredCostsPerLoan

/-- `indirect_costs = (total_production / avgLoanExposureAtOrigination) * indirect_cost_per_loan`. -/
def indirectCostsYear (cfg : Config) (year : ℤ) : ℚ :=
  rmul (rdiv (totalProductionYear cfg year) cfg.avgLoanExposureAtOrigination)
    cfg.indirectCostsPerLoan

/-- `effective_interest_rate = (new_origination_fees - new_direct_costs) / total_production / (averageLifeLoans * 12)`. -/
def effectiveInterestRateYear (cfg : Config) (year : ℤ) : ℚ :=
  rdiv (rdiv (rsub (newOriginationFeesYear cfg year) (newDirectCostsYear cfg year))
      (totalProductionYear cfg year))
    (rmul cfg.averageLifeLoans 12)

/-- `_calculate_salary_expense`: `salary * (1 + annualMeritIncrease) ** (months_since_hire // 12) / 12`.
(In range, `months_since_hire ≥ 0`, so the `Int.toNat` conversion is exact.) -/
def calculateSalaryExpense (cfg : Config) (monthsSinceHire : ℤ) : ℚ :=
  rdiv (rmul cfg.salary (rpow (radd 1 cfg.annualMeritIncrease) (monthsSinceHire.ediv 12).toNat)) 12

/-- `_calculate_loan_balance`.  `prev` is the previous schedule row
(`none` models `i == 0`). -/
def calculateLoanBalance (cfg : Config) (date : Date) (prev : Option Row) : LoanDetails :=
  if Date.lt date cfg.firstProductionDate then ⟨0, 0, 0, 0⟩
  else
    let year := productionYearIndex cfg date
    let monthly_production := monthlyLoanProduction cfg year
    let prepayment_rate := rdiv cfg.prepayPercentageOfBalance 12
    let firstMonth : LoanDetails := ⟨monthly_production, 0, 0, monthly_production⟩
    match prev with
    | none => firstMonth
    | some p =>
      if Date.lt p.date cfg.firstProductionDate then firstMonth
      else
        let previous_balance := p.loan_balance
        let prepayment_amount := rmul previous_balance prepayment_rate
        let scheduled_amortization := rdiv previous_balance (rmul cfg.averageLifeLoans 12)
        let new_balance :=
          radd (rsub (rsub previous_balance prepayment_amount) scheduled_amortization)
            monthly_production
        ⟨monthly_production, prepayment_amount, scheduled_amortization, new_balance⟩

/-- `_calculate_line_balance`. -/
def calculateLineBalance (cfg : Config) (date : Date) (prev : Option Row) : LineDetails :=
  if Date.lt date cfg.firstProductionDate then ⟨0, 0, 0, 0⟩
  else
    let year := productionYearIndex cfg date
    let monthly_production := monthlyLineProduction cfg year
    let utilization_rate := cfg.lineUtilizationPercentage
    let prepayment_rate := rdiv cfg.prepayPercentageOfBalance 12
    let utilization_production := rmul monthly_production utilization_rate
    let firstMonth : LineDetails := ⟨monthly_production, 0, utilization_production, utilization_production⟩
    match prev with
    | none => firstMonth
    | some p =>
      if Date.lt p.date cfg.firstProductionDate then firstMonth
      else
        let previous_balance := p.line_balance
        let prepayment_amount := rmul previous_balance prepayment_rate
        let new_balance := radd (rsub previous_balance prepayment_amount) utilization_production
        ⟨monthly_production, prepayment_amount, utilization_production, new_balance⟩

/-- `_calculate_deposit_balance`. -/
def calculateDepositBalance (cfg : Config) (date : Date) (prev : Option Row) : ℚ :=
  if Date.lt date cfg.firstProductionDate then 0
  else
    let year := productionYearIndex cfg date
    let monthly_production := rdiv (cfg.annualProduction year).deposits 12
    match prev with
    | none => monthly_production
    | some p =>
      if Date.lt p.date cfg.firstProductionDate then monthly_production
      else radd p.deposit_balance monthly_production

/-- Grid tenors of every yield curve (`tenors` in `_initialize_yield_curves`). -/
def baseTenors : List ℚ := [mkRat 1 4, mkRat 1 2, 1, 2, 3, 5, 10, 30]

/-- Base rates of every yield curve (`base_rates` in `_initialize_yield_curves`). -/
def baseRates : List ℚ :=
  [mkRat 1 100, mkRat 15 1000, mkRat 2 100, mkRat 25 1000,
   mkRat 3 100, mkRat 35 1000, mkRat 4 100, mkRat 45 1000]

/-- `year_rates = [r + goingOnYields[year]['loans'] / 100 for r in base_rates]`
(note the division by 100 of a value that validation already normalized). -/
def yearRates (cfg : Config) (year : ℤ) : List ℚ :=
  baseRates.map (fun r => radd r (rdiv (cfg.goingOnYields year).loans 100))

/-- The (tenor, rate) table of the year's `YieldCurve` built by
`_initialize_yield_curves`. -/
def yieldCurvePoints (cfg : Config) (year : ℤ) : List (ℚ × ℚ) :=
  baseTenors.zip (yearRates cfg year)

/-- `YieldCurve.get_rate`: at a grid tenor the interpolating cubic spline
returns the tabulated rate; off the grid it is the opaque `offGridRate`. -/
def getRate (cfg : Config) (year : ℤ) (tenor : ℚ) : ℚ :=
  ((yieldCurvePoints cfg year).lookup tenor).getD (cfg.offGridRate year tenor)

/-- `max(d for d in self.yield_curves.keys() if d <= date)`, as the year index
`k` of the selected curve: the keys are `firstProductionDate + k years`,
`k = 0 … 4`, so the latest key `≤ date` has the largest such `k`.
(Only evaluated for `date ≥ firstProductionDate`.) -/
def curveYearFor (cfg : Config) (date : Date) : ℤ :=
  if Date.le (addYears cfg.firstProductionDate 4) date then 4
  else if Date.le (addYears cfg.firstProductionDate 3) date then 3
  else if Date.le (addYears cfg.firstProductionDate 2) date then 2
  else if Date.le (addYears cfg.firstProductionDate 1) date then 1
  else 0

/-- `_calculate_interest_income_loans` (reads the current row's `loan_balance`). -/
def calculateInterestIncomeLoans (cfg : Config) (date : Date) (loanBalance : ℚ) : ℚ :=
  if Date.lt date cfg.firstProductionDate then 0
  else
    let loanYield := rdiv (getRate cfg (curveYearFor cfg date) cfg.averageLifeLoans) 12
    rmul loanBalance loanYield

/-- `_calculate_interest_income_lines` (reads the current row's `line_balance`). -/
def calculateInterestIncomeLines (cfg : Config) (date : Date) (lineBalance : ℚ) : ℚ :=
  if Date.lt date cfg.firstProductionDate then 0
  else
    let lineYield := rdiv (getRate cfg (curveYearFor cfg date) cfg.averageLifeLines) 12
    rmul lineBalance lineYield

/-- `_calculate_interest_expense` (reads the current row's `deposit_balance`;
note the second division by 100 of the already-normalized deposit yield). -/
def calculateInterestExpense (cfg : Config) (date : Date) (depositBalance : ℚ) : ℚ :=
  if Date.lt date cfg.firstProductionDate then 0
  else
    let year := productionYearIndex cfg date
    let depositYield := rdiv (rdiv (cfg.goingOnYields year).deposits 100) 12
    rmul depositBalance depositYield

/-- `_calculate_deferred_fees_and_costs`: returns
`(new_deferred_fees, new_deferred_costs, total_fee_amortization,
total_cost_amortization, indirect_costs)`.  `prev` is the previous row
(`none` models `i == 0`). -/
def calculateDeferredFeesAndCosts (cfg : Config) (date : Date) (prev : Option Row) :
    ℚ × ℚ × ℚ × ℚ × ℚ :=
  if Date.lt date cfg.firstProductionDate then (0, 0, 0, 0, 0)
  else
    let year := productionYearIndex cfg date
    let new_origination_fees := newOriginationFeesYear cfg year
    let new_direct_costs := newDirectCostsYear cfg year
    let indirect_costs := indirectCostsYear cfg year
    let prevVals : ℚ × ℚ × ℚ :=
      match prev with
      | none => (0, 0, 0)
      | some p =>
        if Date.lt p.date cfg.firstProductionDate then (0, 0, 0)
        else (p.deferred_origination_fees, p.deferred_costs,
              radd p.loan_balance p.line_balance)
    let previous_deferred_fees := prevVals.1
    let previous_deferred_costs := prevVals.2.1
    let previous_loan_balance := prevVals.2.2
    let effective_interest_rate := effectiveInterestRateYear cfg year
    let regular_fee_amortization := rmul previous_deferred_fees effective_interest_rate
    let regular_cost_amortization := rmul previous_deferred_costs effective_interest_rate
    let prepayment_rate := rdiv cfg.prepayPercentageOfBalance 12
    let prepayment_amount := rmul previous_loan_balance prepayment_rate
    let prepayment_fee_amortization :=
      if 0 < previous_loan_balance then
        rmul (rdiv prepayment_amount previous_loan_balance) previous_deferred_fees
      else 0
    let prepayment_cost_amortization :=
      if 0 < previous_loan_balance then
        rmul (rdiv prepayment_amount previous_loan_balance) previous_deferred_costs
      else 0
    let total_fee_amortization := radd regular_fee_amortization prepayment_fee_amortization
    let total_cost_amortization := radd regular_cost_amortization prepayment_cost_amortization
    let new_deferred_fees :=
      rsub (radd previous_deferred_fees new_origination_fees) total_fee_amortization
    let new_deferred_costs :=
      rsub (radd previous_deferred_costs new_direct_costs) total_cost_amortization
    (new_deferred_fees, new_deferred_costs, total_fee_amortization,
     total_cost_amortization, indirect_costs)

/-- The `previous_deferred_fees` binding of
`_calculate_deferred_fees_and_costs`: 0 for the first row or a
pre-production previous row, else the previous row's deferred-fee balance. -/
def prevDeferredFees (cfg : Config) (prev : Option Row) : ℚ :=
  match prev with
  | none => 0
  | some p => if Date.lt p.date cfg.firstProductionDate then 0 else p.deferred_origination_fees

/-- The month's `new_origination_fees` (0 before production). -/
def newOriginationFeesAt (cfg : Config) (date : Date) : ℚ :=
  if Date.lt date cfg.firstProductionDate then 0
  else newOriginationFeesYear cfg (productionYearIndex cfg date)

/-- `_calculate_unused_commitment_fees`. -/
def calculateUnusedCommitmentFees (cfg : Config) (date : Date) : ℚ :=
  if Date.lt date cfg.firstProductionDate then 0
  else
    let monthly_line_production := monthlyLineProduction cfg (productionYearIndex cfg date)
    let unused_balance := rmul monthly_line_production (rsub 1 cfg.lineUtilizationPercentage)
    rmul unused_balance cfg.unusedCommitmentFeePercentage

/-- `_calculate_provision_expense` (fixed 1% provision rate on monthly loan production). -/
def calculateProvisionExpense (cfg : Config) (date : Date) : ℚ :=
  if Date.lt date cfg.firstProductionDate then 0
  else rmul (monthlyLoanProduction cfg (productionYearIndex cfg date)) (mkRat 1 100)

/-- `_calculate_efficiency_ratio`: non-interest expense over
`interest_income_loans + interest_income_lines + origination_fees +
unused_commitment_fees - interest_expense`; `none` models the float `inf`
returned when that denominator is ≤ 0. -/
def calculateEfficiencyRat (iiLoans iiLines origFees unusedFees intExp nie : ℚ) : Option ℚ :=
  let total_revenue := rsub (radd (radd (radd iiLoans iiLines) origFees) unusedFees) intExp
  if total_revenue ≤ 0 then none else some (rdiv nie total_revenue)

/-- The branch-dependent values of one month of `_generate_monthly_schedule`:
what the `if date >= self.first_production_date` branch writes (production
months), or the zeros the `else` branch writes.  The `else` branch zeroes
every column other than `salary_expense`, `benefits_expense`,
`discretionary_expense` and `fas91_balance` — in particular it overwrites the
just-computed `incentive_compensation_expense` with 0, which is why
`incentive` lives in this slice. -/
structure ProdSlice where
  loanD : LoanDetails
  lineD : LineDetails
  depositBal : ℚ
  iiLoans : ℚ
  iiLines : ℚ
  intExp : ℚ
  defFees : ℚ
  defCosts : ℚ
  origFees : ℚ
  defCostAmort : ℚ
  indirects : ℚ
  unusedFees : ℚ
  nii : ℚ
  provision : ℚ
  incentive : ℚ

/-- One iteration of the loop in `_generate_monthly_schedule`: computes the
row for `date` from the previous row (`none` models `i == 0`). -/
def scheduleStep (cfg : Config) (prev : Option Row) (date : Date) : Row :=
  let salaryGate := Date.le cfg.rmHireDate date
  let salary_expense :=
    if salaryGate then calculateSalaryExpense cfg (monthDiff date cfg.rmHireDate) else 0
  let benefits_expense := if salaryGate then rmul salary_expense (mkRat 28 100) else 0
  let incentive0 :=
    if salaryGate then rmul salary_expense cfg.incentiveCompensationPercentage else 0
  let discretionary_expense := if salaryGate then rdiv cfg.discretionaryExpenses 12 else 0
  let s : ProdSlice :=
    if Date.le cfg.firstProductionDate date then
      let loanD := calculateLoanBalance cfg date prev
      let lineD := calculateLineBalance cfg date prev
      let depositBal := calculateDepositBalance cfg date prev
      let iiLoans := calculateInterestIncomeLoans cfg date loanD.new_balance
      let iiLines := calculateInterestIncomeLines cfg date lineD.new_balance
      let intExp := calculateInterestExpense cfg date depositBal
      let q := calculateDeferredFeesAndCosts cfg date prev
      let unusedFees := calculateUnusedCommitmentFees cfg date
      { loanD, lineD, depositBal, iiLoans, iiLines, intExp,
        defFees := q.1, defCosts := q.2.1, origFees := q.2.2.1,
        defCostAmort := q.2.2.2.1, indirects := q.2.2.2.2,
        unusedFees, nii := radd q.2.2.1 unusedFees,
        provision := calculateProvisionExpense cfg date,
        incentive := incentive0 }
    else
      { loanD := ⟨0, 0, 0, 0⟩, lineD := ⟨0, 0, 0, 0⟩, depositBal := 0, iiLoans := 0,
        iiLines := 0, intExp := 0, defFees := 0, defCosts := 0, origFees := 0,
        defCostAmort := 0, indirects := 0, unusedFees := 0, nii := 0, provision := 0,
        incentive := 0 }
  let non_interest_expense :=
    radd (radd (radd (radd (radd salary_expense benefits_expense) s.incentive)
      discretionary_expense) s.defCostAmort) s.indirects
  let net_income :=
    rsub (rsub (rsub (radd (radd s.iiLoans s.iiLines) s.nii) s.intExp)
      non_interest_expense) s.provision
  let cumulative_income :=
    match prev with
    | none => radd (radd s.iiLoans s.iiLines) s.nii
    | some p => radd p.cumulative_income (radd (radd s.iiLoans s.iiLines) s.nii)
  let cumulative_expenses :=
    match prev with
    | none => radd (radd s.intExp non_interest_expense) s.provision
    | some p => radd p.cumulative_expenses (radd (radd s.intExp non_interest_expense) s.provision)
  let cumulative_profit := rsub cumulative_income cumulative_expenses
  let efficiency_rat :=
    calculateEfficiencyRat s.iiLoans s.iiLines s.origFees s.unusedFees s.intExp
      non_interest_expense
  let total_assets :=
    rsub (radd (radd s.loanD.new_balance s.lineD.new_balance) s.defCosts) s.defFees
  let total_liabilities := s.depositBal
  { date,
    loan_balance := s.loanD.new_balance,
    line_balance := s.lineD.new_balance,
    deposit_balance := s.depositBal,
    interest_income_loans := s.iiLoans,
    interest_income_lines := s.iiLines,
    interest_expense := s.intExp,
    non_interest_income := s.nii,
    non_interest_expense,
    provision_expense := s.provision,
    net_income,
    cumulative_income,
    cumulative_expenses,
    cumulative_profit,
    fas91_balance := 0,
    efficiency_rat,
    origination_fees := s.origFees,
    unused_commitment_fees := s.unusedFees,
    salary_expense,
    incentive_compensation_expense := s.incentive,
    benefits_expense,
    discretionary_expense,
    total_assets,
    total_liabilities,
    total_equity := rsub total_assets total_liabilities,
    loan_monthly_production := s.loanD.monthly_production,
    loan_prepayment_amount := s.loanD.prepayment_amount,
    loan_scheduled_amortization := s.loanD.scheduled_amortization,
    line_monthly_production := s.lineD.monthly_production,
    line_prepayment_amount := s.lineD.prepayment_amount,
    line_utilization_production := s.lineD.utilization_production,
    deferred_origination_fees := s.defFees,
    deferred_costs := s.defCosts,
    deferred_cost_amortization := s.defCostAmort,
    indirect_costs := s.indirects }

/-- Folds `scheduleStep` over the date sequence, threading the previous row. -/
def rollOn (cfg : Config) : Option Row → List Date → List Row
  | _, [] => []
  | prev, d :: ds =>
    let r := scheduleStep cfg prev d
    r :: rollOn cfg (some r) ds

/-- `_generate_monthly_schedule`: one row per month-start date of
`self.dates`, each computed from the previous row. -/
def generateMonthlySchedule (cfg : Config) : List Row :=
  rollOn cfg none (scheduleDates cfg)

/-- Kernel-computable sum of a list of rationals (equals `List.sum`). -/
def rsum (l : List ℚ) : ℚ := l.foldr radd 0

/-- Float addition with `inf` (`none`): `inf + x = inf`.  Pandas' column sum
of the `efficiency_ratio` column propagates the `inf` months. -/
def optAdd (a b : Option ℚ) : Option ℚ :=
  match a, b with
  | some x, some y => some (radd x y)
  | _, _ => none

/-- Sum of a column of possibly-`inf` floats. -/
def osum (l : List (Option ℚ)) : Option ℚ := l.foldr optAdd (some 0)

/-- One row of the annual summary: every column of the monthly schedule,
aggregated for one calendar year. -/
structure AnnualRow where
  year : ℤ
  loan_balance : ℚ
  line_balance : ℚ
  deposit_balance : ℚ
  interest_income_loans : ℚ
  interest_income_lines : ℚ
  interest_expense : ℚ
  non_interest_income : ℚ
  non_interest_expense : ℚ
  provision_expense : ℚ
  net_income : ℚ
  cumulative_income : ℚ
  cumulative_expenses : ℚ
  cumulative_profit : ℚ
  fas91_balance : ℚ
  efficiency_rat : Option ℚ
  origination_fees : ℚ
  unused_commitment_fees : ℚ
  salary_expense : ℚ
  incentive_compensation_expense : ℚ
  benefits_expense : ℚ
  discretionary_expense : ℚ
  total_assets : ℚ
  total_liabilities : ℚ
  total_equity : ℚ
  loan_monthly_production : ℚ
  loan_prepayment_amount : ℚ
  loan_scheduled_amortization : ℚ
  line_monthly_production : ℚ
  line_prepayment_amount : ℚ
  line_utilization_production : ℚ
  deferred_origination_fees : ℚ
  deferred_costs : ℚ
  deferred_cost_amortization : ℚ
  indirect_costs : ℚ
  deriving DecidableEq

/-- The annual-summary row of one calendar year: every column summed over
that year's monthly rows (this is what `resample('A').sum()` computes for
every column — sums, not means or last values). -/
def yearRowSum (rows : List Row) (y : ℤ) : AnnualRow :=
  let yr := rows.filter (fun r => r.date.year == y)
  { year := y,
    loan_balance := rsum (yr.map Row.loan_balance),
    line_balance := rsum (yr.map Row.line_balance),
    deposit_balance := rsum (yr.map Row.deposit_balance),
    interest_income_loans := rsum (yr.map Row.interest_income_loans),
    interest_income_lines := rsum (yr.map Row.interest_income_lines),
    interest_expense := rsum (yr.map Row.interest_expense),
    non_interest_income := rsum (yr.map Row.non_interest_income),
    non_interest_expense := rsum (yr.map Row.non_interest_expense),
    provision_expense := rsum (yr.map Row.provision_expense),
    net_income := rsum (yr.map Row.net_income),
    cumulative_income := rsum (yr.map Row.cumulative_income),
    cumulative_expenses := rsum (yr.map Row.cumulative_expenses),
    cumulative_profit := rsum (yr.map Row.cumulative_profit),
    fas91_balance := rsum (yr.map Row.fas91_balance),
    efficiency_rat := osum (yr.map Row.efficiency_rat),
    origination_fees := rsum (yr.map Row.origination_fees),
    unused_commitment_fees := rsum (yr.map Row.unused_commitment_fees),
    salary_expense := rsum (yr.map Row.salary_expense),
    incentive_compensation_expense := rsum (yr.map Row.incentive_compensation_expense),
    benefits_expense := rsum (yr.map Row.benefits_expense),
    discretionary_expense := rsum (yr.map Row.discretionary_expense),
    total_assets := rsum (yr.map Row.total_assets),
    total_liabilities := rsum (yr.map Row.total_liabilities),
    total_equity := rsum (yr.map Row.total_equity),
    loan_monthly_production := rsum (yr.map Row.loan_monthly_production),
    loan_prepayment_amount := rsum (yr.map Row.loan_prepayment_amount),
    loan_scheduled_amortization := rsum (yr.map Row.loan_scheduled_amortization),
    line_monthly_production := rsum (yr.map Row.line_monthly_production),
    line_prepayment_amount := rsum (yr.map Row.line_prepayment_amount),
    line_utilization_production := rsum (yr.map Row.line_utilization_production),
    deferred_origination_fees := rsum (yr.map Row.deferred_origination_fees),
    deferred_costs := rsum (yr.map Row.deferred_costs),
    deferred_cost_amortization := rsum (yr.map Row.deferred_cost_amortization),
    indirect_costs := rsum (yr.map Row.indirect_costs) }

/-- `_generate_annual_summary`: `monthly_schedule.resample('A').sum()` — one
output row per calendar year from the first month's year to the last month's
year, every column summed over that year's months. -/
def annualSummary (rows : List Row) : List AnnualRow :=
  match rows with
  | [] => []
  | r0 :: rest =>
    let y0 := r0.date.year
    let y1 := ((r0 :: rest).getLast (List.cons_ne_nil r0 rest)).date.year
    (List.range (y1 - y0 + 1).toNat).map (fun i => yearRowSum (r0 :: rest) (y0 + Int.ofNat i))

/-- The first row at which the running total of `net_income` (started from
`acc`) becomes ≥ 0; `none` if it never does.  This is the
`cumulative_net[cumulative_net >= 0].first_valid_index()` scan of
`_calculate_cumulative_payback`. -/
def findCrossing : ℚ → List Row → Option Row
  | _, [] => none
  | acc, r :: rs =>
    let c := radd acc r.net_income
    if 0 ≤ c then some r else findCrossing c rs

/-- `_calculate_cumulative_payback`: scans the cumulative sums of
`net_income` for the first month with value ≥ 0; if found, returns the
elapsed calendar days from the first month's date to that month's date,
divided by 365.25; otherwise `None`.  (The source's `if break_even:` test is
truthy for every `pd.Timestamp` and falsy only for `None`.) -/
def calculateCumulativePayback (rows : List Row) : Option ℚ :=
  match rows with
  | [] => none
  | r0 :: _ =>
    (findCrossing 0 rows).map (fun r =>
      rdiv (((r.date.toDayNumber - r0.date.toDayNumber : ℤ) : ℚ)) (mkRat 36525 100))

/-! ### Input validation (`validate_inputs`, `parse_date`, `parse_percentage`,
`parse_number`, and the `calculate_pro_forma` entry point)

Python strings are modelled as `List Char` (the Lean kernel cannot reduce
`String` primitives); Python numbers as `ℚ`; a parsed `datetime.date` as
`Date`.  Raising `ValueError` is modelled with `Except (List Char)`, and the
source's in-place mutation of the caller's `inputs` dict
(`self.inputs[field] = …` on the aliased argument) is modelled by returning
the final state of the input record next to the result: a Python run that
raises partway leaves all assignments made so far visible to the caller. -/

deriving instance DecidableEq for Except

/-- A loosely-typed input value: Python float/int, str, or datetime/date. -/
inductive RawVal where
  | num (q : ℚ)
  | str (s : List Char)
  | date (d : Date)
  deriving DecidableEq

/-- One raw `annualProduction` entry. -/
structure RawProdYear where
  loans : RawVal
  deposits : RawVal
  deriving DecidableEq

/-- One raw `goingOnYields` entry. -/
structure RawYieldYear where
  loans : RawVal
  lines : RawVal
  deposits : RawVal
  deriving DecidableEq

/-- The raw input map of `calculate_pro_forma`; every required field of
`validate_inputs` is present by construction (the missing-field check of the
source is therefore modelled as always passing), and the optional
`indirectCostsPerLoan` (read with `.get(…, 0)`) is an `Option`. -/
structure RawInputs where
  rmHireDate : RawVal
  firstProductionDate : RawVal
  annualProduction : List RawProdYear
  goingOnYields : List RawYieldYear
  loanVsLinePercentage : RawVal
  lineUtilizationPercentage : RawVal
  originationFeePercentage : RawVal
  unusedCommitmentFeePercentage : RawVal
  annualMeritIncrease : RawVal
  prepayPercentageOfBalance : RawVal
  incentiveCompensationPercentage : RawVal
  salary : RawVal
  discretionaryExpenses : RawVal
  deferredCostsPerLoan : RawVal
  averageLifeLoans : RawVal
  averageLifeLines : RawVal
  avgLoanExposureAtOrigination : RawVal
  indirectCostsPerLoan : Option RawVal
  deriving DecidableEq

/-- Split a character list on a separator (like Python `str.split(sep)`). -/
def splitOnChar (c : Char) : List Char → List (List Char)
  | [] => [[]]
  | x :: xs =>
    let r := splitOnChar c xs
    if x = c then [] :: r
    else
      match r with
      | [] => [[x]]
      | g :: gs => (x :: g) :: gs

/-- Decimal value of a digit list (helper for the string parsers). -/
def digitsToNat : List Char → ℕ → ℕ
  | [], acc => acc
  | c :: cs, acc => digitsToNat cs (acc * 10 + (c.toNat - 48))

/-- A nonempty list of decimal digits, as a number. -/
def parseDigits (s : List Char) : Option ℕ :=
  if s ≠ [] ∧ s.all Char.isDigit then some (digitsToNat s 0) else none

/-- `datetime.strptime(s, "%Y-%m-%d").date()`: exactly three dash-separated
digit groups, with the month in 1–12 and the day valid for that month. -/
def parseYMD (s : List Char) : Option Date :=
  match splitOnChar '-' s with
  | [ys, ms, ds] =>
    match parseDigits ys, parseDigits ms, parseDigits ds with
    | some y, some m, some d =>
      if 1 ≤ m ∧ m ≤ 12 ∧ 1 ≤ d ∧ (Int.ofNat d) ≤ daysInMonth (Int.ofNat y) (Int.ofNat m) then
        some ⟨Int.ofNat y, Int.ofNat m, Int.ofNat d⟩
      else none
    | _, _, _ => none
  | _ => none

/-- Python `float(s)` on the decimal-literal subset the model needs:
optional sign, then digits with at most one decimal point (exponents, `inf`
and `nan` are out of the claims' scope). -/
def parseFloatChars (s : List Char) : Option ℚ :=
  let signRest : ℚ × List Char :=
    match s with
    | '-' :: t => (-1, t)
    | '+' :: t => (1, t)
    | t => (1, t)
  match splitOnChar '.' signRest.2 with
  | [ip] =>
    match parseDigits ip with
    | some n => some (rmul signRest.1 (mkRat (Int.ofNat n) 1))
    | none => none
  | [ip, fp] =>
    if (ip ++ fp) ≠ [] ∧ ip.all Char.isDigit ∧ fp.all Char.isDigit then
      some (rmul signRest.1
        (radd (mkRat (Int.ofNat (digitsToNat ip 0)) 1)
          (mkRat (Int.ofNat (digitsToNat fp 0)) (10 ^ fp.length))))
    else none
  | _ => none

/-- Python `str.strip()` (modelled on the space character). -/
def pyStrip (s : List Char) : List Char :=
  ((s.dropWhile (· = ' ')).reverse.dropWhile (· = ' ')).reverse

/-- `RMProFormaModel.parse_date`: a datetime passes through unchanged, a
string must parse as `YYYY-MM-DD`, anything else is an unsupported type. -/
def parse_date (v : RawVal) : Except (List Char) Date :=
  match v with
  | .date d => .ok d
  | .str s =>
    match parseYMD s with
    | some d => .ok d
    | none => .error ("Invalid date format: expected YYYY-MM-DD".toList)
  | .num _ => .error ("Unsupported date type".toList)

/-- `RMProFormaModel.parse_percentage`: numbers and percent-strings are
divided by 100. -/
def parse_percentage (v : RawVal) : Except (List Char) ℚ :=
  match v with
  | .num q => .ok (rdiv q 100)
  | .str s =>
    match parseFloatChars (((pyStrip s).reverse.dropWhile (· = '%')).reverse) with
    | some q => .ok (rdiv q 100)
    | none => .error ("could not convert string to float".toList)
  | .date _ => .error ("Invalid percentage value".toList)

/-- `RMProFormaModel.parse_number`: numbers pass through; strings are
stripped of every character outside digits, `.` and `-`, then float-parsed. -/
def parse_number (v : RawVal) : Except (List Char) ℚ :=
  match v with
  | .num q => .ok q
  | .str s =>
    match parseFloatChars (s.filter (fun c => c.isDigit || c = '.' || c = '-')) with
    | some q => .ok q
    | none => .error ("could not convert string to float".toList)
  | .date _ => .error ("Invalid numeric value".toList)

/-- Sequencing of stateful validation steps: a raised error short-circuits,
keeping the mutations made so far. -/
def vstep (st : Except (List Char) Unit × RawInputs)
    (f : RawInputs → Except (List Char) Unit × RawInputs) :
    Except (List Char) Unit × RawInputs :=
  match st with
  | (.ok _, m) => f m
  | e => e

/-- One percentage-field conversion:
`self.inputs[field] = self.parse_percentage(self.inputs[field])`. -/
def applyPct (get : RawInputs → RawVal) (set : RawInputs → ℚ → RawInputs)
    (name : List Char) (m : RawInputs) : Except (List Char) Unit × RawInputs :=
  match parse_percentage (get m) with
  | .ok q => (.ok (), set m q)
  | .error e =>
    (.error ("Invalid percentage value for ".toList ++ name ++ ": ".toList ++ e), m)

/-- One numeric-field conversion:
`self.inputs[field] = self.parse_number(self.inputs[field])`. -/
def applyNum (get : RawInputs → RawVal) (set : RawInputs → ℚ → RawInputs)
    (name : List Char) (m : RawInputs) : Except (List Char) Unit × RawInputs :=
  match parse_number (get m) with
  | .ok q => (.ok (), set m q)
  | .error e =>
    (.error ("Invalid numeric value for ".toList ++ name ++ ": ".toList ++ e), m)

/-- The list comprehension normalizing one `annualProduction` entry. -/
def parseProdEntry (e : RawProdYear) : Except (List Char) ProductionYear :=
  match parse_number e.loans with
  | .error er => .error er
  | .ok l =>
    match parse_number e.deposits with
    | .error er => .error er
    | .ok dp => .ok ⟨l, dp⟩

/-- Normalizes the whole `annualProduction` list (the comprehension is
atomic: a failing entry leaves the field unassigned). -/
def parseProdList : List RawProdYear → Except (List Char) (List ProductionYear)
  | [] => .ok []
  | e :: es =>
    match parseProdEntry e with
    | .error er => .error er
    | .ok p =>
      match parseProdList es with
      | .error er => .error er
      | .ok ps => .ok (p :: ps)

/-- The list comprehension normalizing one `goingOnYields` entry
(each sub-field through `parse_percentage`). -/
def parseYieldEntry (e : RawYieldYear) : Except (List Char) YieldYear :=
  match parse_percentage e.loans with
  | .error er => .error er
  | .ok l =>
    match parse_percentage e.lines with
    | .error er => .error er
    | .ok li =>
      match parse_percentage e.deposits with
      | .error er => .error er
      | .ok dp => .ok ⟨l, li, dp⟩

/-- Normalizes the whole `goingOnYields` list. -/
def parseYieldList : List RawYieldYear → Except (List Char) (List YieldYear)
  | [] => .ok []
  | e :: es =>
    match parseYieldEntry e with
    | .error er => .error er
    | .ok p =>
      match parseYieldList es with
      | .error er => .error er
      | .ok ps => .ok (p :: ps)

/-- `self.inputs['annualProduction'] = [...]` (assigned before
`goingOnYields` is parsed). -/
def applyProd (m : RawInputs) : Except (List Char) Unit × RawInputs :=
  match parseProdList m.annualProduction with
  | .ok l =>
    (.ok (), { m with annualProduction := l.map (fun p => ⟨.num p.loans, .num p.deposits⟩) })
  | .error e =>
    (.error ("Invalid structure in annualProduction or goingOnYields: ".toList ++ e), m)

/-- `self.inputs['goingOnYields'] = [...]`. -/
def applyYields (m : RawInputs) : Except (List Char) Unit × RawInputs :=
  match parseYieldList m.goingOnYields with
  | .ok l =>
    (.ok (),
     { m with goingOnYields := l.map (fun p => ⟨.num p.loans, .num p.lines, .num p.deposits⟩) })
  | .error e =>
    (.error ("Invalid structure in annualProduction or goingOnYields: ".toList ++ e), m)

/-- The percentage-conversion loop of `validate_inputs`, in source order. -/
def pctPhase (m : RawInputs) : Except (List Char) Unit × RawInputs :=
  vstep (applyPct (fun m => m.loanVsLinePercentage)
      (fun m q => { m with loanVsLinePercentage := .num q }) ("loanVsLinePercentage".toList) m)
    (fun m2 => vstep (applyPct (fun m => m.lineUtilizationPercentage)
        (fun m q => { m with lineUtilizationPercentage := .num q })
        ("lineUtilizationPercentage".toList) m2)
      (fun m3 => vstep (applyPct (fun m => m.originationFeePercentage)
          (fun m q => { m with originationFeePercentage := .num q })
          ("originationFeePercentage".toList) m3)
        (fun m4 => vstep (applyPct (fun m => m.unusedCommitmentFeePercentage)
            (fun m q => { m with unusedCommitmentFeePercentage := .num q })
            ("unusedCommitmentFeePercentage".toList) m4)
          (fun m5 => vstep (applyPct (fun m => m.annualMeritIncrease)
              (fun m q => { m with annualMeritIncrease := .num q })
              ("annualMeritIncrease".toList) m5)
            (fun m6 => vstep (applyPct (fun m => m.prepayPercentageOfBalance)
                (fun m q => { m with prepayPercentageOfBalance := .num q })
                ("prepayPercentageOfBalance".toList) m6)
              (fun m7 => applyPct (fun m => m.incentiveCompensationPercentage)
                (fun m q => { m with incentiveCompensationPercentage := .num q })
                ("incentiveCompensationPercentage".toList) m7))))))

/-- The nested-structure conversion of `validate_inputs`. -/
def nestedPhase (m : RawInputs) : Except (List Char) Unit × RawInputs :=
  vstep (applyProd m) applyYields

/-- The numeric-field conversion loop of `validate_inputs`, in source order. -/
def numPhase (m : RawInputs) : Except (List Char) Unit × RawInputs :=
  vstep (applyNum (fun m => m.salary) (fun m q => { m with salary := .num q })
      ("salary".toList) m)
    (fun m2 => vstep (applyNum (fun m => m.discretionaryExpenses)
        (fun m q => { m with discretionaryExpenses := .num q })
        ("discretionaryExpenses".toList) m2)
      (fun m3 => vstep (applyNum (fun m => m.deferredCostsPerLoan)
          (fun m q => { m with deferredCostsPerLoan := .num q })
          ("deferredCostsPerLoan".toList) m3)
        (fun m4 => vstep (applyNum (fun m => m.averageLifeLoans)
            (fun m q => { m with averageLifeLoans := .num q })
            ("averageLifeLoans".toList) m4)
          (fun m5 => vstep (applyNum (fun m => m.averageLifeLines)
              (fun m q => { m with averageLifeLines := .num q })
              ("averageLifeLines".toList) m5)
            (fun m6 => applyNum (fun m => m.avgLoanExposureAtOrigination)
              (fun m q => { m with avgLoanExposureAtOrigination := .num q })
              ("avgLoanExposureAtOrigination".toList) m6)))))

/-- `RMProFormaModel.validate_inputs`, as a state-passing function: parses
the two dates in place, checks the date order, then converts the percentage
fields, the nested structures, and the numeric fields, mutating `inputs`
field by field and short-circuiting on the first error (all mutations made
before the error remain). -/
def validateInputs (m0 : RawInputs) : Except (List Char) Unit × RawInputs :=
  match parse_date m0.rmHireDate with
  | .error e => (.error ("Invalid date format for rmHireDate: ".toList ++ e), m0)
  | .ok d1 =>
    let m1 := { m0 with rmHireDate := .date d1 }
    match parse_date m1.firstProductionDate with
    | .error e => (.error ("Invalid date format for firstProductionDate: ".toList ++ e), m1)
    | .ok d2 =>
      let m2 := { m1 with firstProductionDate := .date d2 }
      if Date.lt d2 d1 then
        (.error ("First Production Date cannot be earlier than RM Hire Date".toList), m2)
      else
        vstep (pctPhase m2) (fun m => vstep (nestedPhase m) numPhase)

/-- Numeric extraction from a validated field (after a successful
validation every numeric field holds `.num`; the fallback is never read). -/
def getNum (v : RawVal) : ℚ :=
  match v with
  | .num q => q
  | _ => 0

/-- Date extraction from a validated field. -/
def getDate (v : RawVal) : Date :=
  match v with
  | .date d => d
  | _ => ⟨1970, 1, 1⟩

/-- The `Config` the model runs with, built from the validated input map
(the attributes set in `__init__`).  Out-of-range year indices (never
reached: every caller clamps to 0…4 and the spec fixes 5-element lists)
default to zero entries, and the off-grid spline behaviour to the zero
function (no claim evaluates it). -/
def configOfValidated (m : RawInputs) : Config where
  rmHireDate := getDate m.rmHireDate
  firstProductionDate := getDate m.firstProductionDate
  annualProduction := fun k =>
    match m.annualProduction.get? k.toNat with
    | some e => ⟨getNum e.loans, getNum e.deposits⟩
    | none => ⟨0, 0⟩
  goingOnYields := fun k =>
    match m.goingOnYields.get? k.toNat with
    | some e => ⟨getNum e.loans, getNum e.lines, getNum e.deposits⟩
    | none => ⟨0, 0, 0⟩
  loanVsLinePercentage := getNum m.loanVsLinePercentage
  lineUtilizationPercentage := getNum m.lineUtilizationPercentage
  originationFeePercentage := getNum m.originationFeePercentage
  unusedCommitmentFeePercentage := getNum m.unusedCommitmentFeePercentage
  salary := getNum m.salary
  annualMeritIncrease := getNum m.annualMeritIncrease
  discretionaryExpenses := getNum m.discretionaryExpenses
  deferredCostsPerLoan := getNum m.deferredCostsPerLoan
  averageLifeLoans := getNum m.averageLifeLoans
  averageLifeLines := getNum m.averageLifeLines
  prepayPercentageOfBalance := getNum m.prepayPercentageOfBalance
  incentiveCompensationPercentage := getNum m.incentiveCompensationPercentage
  avgLoanExposureAtOrigination := getNum m.avgLoanExposureAtOrigination
  indirectCostsPerLoan :=
    match m.indirectCostsPerLoan with
    | some v => getNum v
    | none => 0
  offGridRate := fun _ _ => 0

/-- The externally visible projection output of `calculate_pro_forma`
(monthly schedule, annual summary, cumulative payback; the serialization to
JSON records is out of scope). -/
structure ProjectionResult where
  monthlySchedule : List Row
  annualSummaryRows : List AnnualRow
  cumulativePayback : Option ℚ
  deriving DecidableEq

/-- The `calculate_pro_forma` entry point: construct the model (running
`validate_inputs` on the aliased caller dict), then compute the projection.
A `ValueError` raised during validation is re-raised as
`"Validation error: …"`; the mutated input map is returned next to the
result (the caller's dict object).  On the error path no projection value
exists in the result at all. -/
def calculateProForma (m : RawInputs) : Except (List Char) ProjectionResult × RawInputs :=
  match validateInputs m with
  | (.error e, m') => (.error ("Validation error: ".toList ++ e), m')
  | (.ok _, m') =>
    let cfg := configOfValidated m'
    let rows := generateMonthlySchedule cfg
    (.ok ⟨rows, annualSummary rows, calculateCumulativePayback rows⟩, m')

/-! ### Concrete scenarios -/

/-- The end-to-end scenario of the spec's §8 test list, as stored after
validation: `parse_percentage` divides every percentage-field input by 100,
so e.g. the input `loanVsLinePercentage = 0.5` is stored as `0.005` and
`goingOnYields = {loans: 0.03, …}` is stored as `{loans: 0.0003, …}`. -/
def cfg7 : Config where
  rmHireDate := ⟨2024, 1, 1⟩
  firstProductionDate := ⟨2024, 7, 1⟩
  annualProduction := fun _ => ⟨6000000, 3600000⟩
  goingOnYields := fun _ => ⟨mkRat 3 10000, mkRat 2 10000, mkRat 1 10000⟩
  loanVsLinePercentage := mkRat 5 1000
  lineUtilizationPercentage := mkRat 5 1000
  originationFeePercentage := mkRat 25 1000000
  unusedCommitmentFeePercentage := mkRat 25 1000000
  salary := 75000
  annualMeritIncrease := mkRat 3 10000
  discretionaryExpenses := 6000
  deferredCostsPerLoan := 1000
  averageLifeLoans := 5
  averageLifeLines := 3
  prepayPercentageOfBalance := mkRat 25 10000
  incentiveCompensationPercentage := mkRat 1 1000
  avgLoanExposureAtOrigination := 250000
  indirectCostsPerLoan := 0
  offGridRate := fun _ _ => 0

/-- The §8 end-to-end scenario's RAW inputs, exactly as the spec lists them
(dates as `YYYY-MM-DD` strings; percentage fields as the raw numbers the
validator divides by 100). -/
def raw7 : RawInputs where
  rmHireDate := .str ("2024-01-01".toList)
  firstProductionDate := .str ("2024-07-01".toList)
  annualProduction := List.replicate 5 ⟨.num 6000000, .num 3600000⟩
  goingOnYields := List.replicate 5 ⟨.num (mkRat 3 100), .num (mkRat 2 100), .num (mkRat 1 100)⟩
  loanVsLinePercentage := .num (mkRat 1 2)
  lineUtilizationPercentage := .num (mkRat 1 2)
  originationFeePercentage := .num (mkRat 25 10000)
  unusedCommitmentFeePercentage := .num (mkRat 25 10000)
  annualMeritIncrease := .num (mkRat 3 100)
  prepayPercentageOfBalance := .num (mkRat 1 4)
  incentiveCompensationPercentage := .num (mkRat 1 10)
  salary := .num 75000
  discretionaryExpenses := .num 6000
  deferredCostsPerLoan := .num 1000
  averageLifeLoans := .num 5
  averageLifeLines := .num 3
  avgLoanExposureAtOrigination := .num 250000
  indirectCostsPerLoan := none

/-- The §8 raw inputs with the two dates swapped: `firstProductionDate`
(2024-01-01) parses to a date strictly earlier than `rmHireDate`
(2024-07-01). -/
def rawC9 : RawInputs :=
  { raw7 with rmHireDate := .str ("2024-07-01".toList),
              firstProductionDate := .str ("2024-01-01".toList) }

/-- The §8 raw inputs with an unparsable `salary` string: validation fails
at the numeric phase, AFTER the dates, percentages, and nested lists have
already been overwritten in place. -/
def rawC10 : RawInputs := { raw7 with salary := .str ("abc".toList) }

/-- The input map as it stands right before the numeric conversion loop of
`validate_inputs`: dates parsed, percentages divided by 100, nested lists
normalized, the six numeric fields still raw. -/
def normalizedMap (m : RawInputs) (d1 d2 : Date) (q1 q2 q3 q4 q5 q6 q7 : ℚ)
    (ap : List ProductionYear) (gy : List YieldYear) : RawInputs where
  rmHireDate := .date d1
  firstProductionDate := .date d2
  annualProduction := ap.map (fun p => ⟨.num p.loans, .num p.deposits⟩)
  goingOnYields := gy.map (fun p => ⟨.num p.loans, .num p.lines, .num p.deposits⟩)
  loanVsLinePercentage := .num q1
  lineUtilizationPercentage := .num q2
  originationFeePercentage := .num q3
  unusedCommitmentFeePercentage := .num q4
  annualMeritIncrease := .num q5
  prepayPercentageOfBalance := .num q6
  incentiveCompensationPercentage := .num q7
  salary := m.salary
  discretionaryExpenses := m.discretionaryExpenses
  deferredCostsPerLoan := m.deferredCostsPerLoan
  averageLifeLoans := m.averageLifeLoans
  averageLifeLines := m.averageLifeLines
  avgLoanExposureAtOrigination := m.avgLoanExposureAtOrigination
  indirectCostsPerLoan := m.indirectCostsPerLoan

/-- A scenario holding the stored fraction `loanVsLinePercentage = 0.5`
(raw input `50`%), used to exhibit the line-production unit mismatch. -/
def cfgC3 : Config where
  rmHireDate := ⟨2024, 1, 1⟩
  firstProductionDate := ⟨2024, 1, 1⟩
  annualProduction := fun _ => ⟨6000000, 0⟩
  goingOnYields := fun _ => ⟨0, 0, 0⟩
  loanVsLinePercentage := mkRat 1 2
  lineUtilizationPercentage := mkRat 1 2
  originationFeePercentage := 0
  unusedCommitmentFeePercentage := 0
  salary := 0
  annualMeritIncrease := 0
  discretionaryExpenses := 0
  deferredCostsPerLoan := 0
  averageLifeLoans := 5
  averageLifeLines := 3
  prepayPercentageOfBalance := 0
  incentiveCompensationPercentage := 0
  avgLoanExposureAtOrigination := 250000
  indirectCostsPerLoan := 0
  offGridRate := fun _ _ => 0

/-- A validated scenario with a 300% origination fee (raw input `300`) and a
one-month average loan life, used to exhibit that the deferred-fee balance
can go negative when the effective-interest rate exceeds 1 per month. -/
def cfgC8 : Config where
  rmHireDate := ⟨2024, 1, 1⟩
  firstProductionDate := ⟨2024, 1, 1⟩
  annualProduction := fun _ => ⟨12, 0⟩
  goingOnYields := fun _ => ⟨0, 0, 0⟩
  loanVsLinePercentage := 0
  lineUtilizationPercentage := 0
  originationFeePercentage := 3
  unusedCommitmentFeePercentage := 0
  salary := 0
  annualMeritIncrease := 0
  discretionaryExpenses := 0
  deferredCostsPerLoan := 0
  averageLifeLoans := mkRat 1 12
  averageLifeLines := 1
  prepayPercentageOfBalance := 0
  incentiveCompensationPercentage := 0
  avgLoanExposureAtOrigination := 250000
  indirectCostsPerLoan := 0
  offGridRate := fun _ _ => 0

/-- A validated scenario with raw input `goingOnYields.loans = 3` (percent),
stored as the fraction `0.03`, used to exhibit the yield-curve shift's second
division by 100. -/
def cfgC4 : Config where
  rmHireDate := ⟨2024, 1, 1⟩
  firstProductionDate := ⟨2024, 1, 1⟩
  annualProduction := fun _ => ⟨6000000, 0⟩
  goingOnYields := fun _ => ⟨mkRat 3 100, mkRat 2 100, mkRat 1 100⟩
  loanVsLinePercentage := mkRat 1 2
  lineUtilizationPercentage := mkRat 1 2
  originationFeePercentage := 0
  unusedCommitmentFeePercentage := 0
  salary := 0
  annualMeritIncrease := 0
  discretionaryExpenses := 0
  deferredCostsPerLoan := 0
  averageLifeLoans := 5
  averageLifeLines := 3
  prepayPercentageOfBalance := 0
  incentiveCompensationPercentage := 0
  avgLoanExposureAtOrigination := 250000
  indirectCostsPerLoan := 0
  offGridRate := fun _ _ => 0

section Bridges

theorem radd_eq (a b : ℚ) : radd a b = a + b := (Rat.add_def' a b).symm

theorem rsub_eq (a b : ℚ) : rsub a b = a - b := (Rat.sub_def' a b).symm

theorem rmul_eq (a b : ℚ) : rmul a b = a * b := by
  rw [rmul, Rat.mul_def, Rat.normalize_eq_mkRat]

theorem rinv_eq (a : ℚ) : rinv a = a⁻¹ := (Rat.inv_def' a).symm

theorem rdiv_eq (a b : ℚ) : rdiv a b = a / b := by
  rw [rdiv, rmul_eq, rinv_eq, div_eq_mul_inv]

theorem rpow_eq (a : ℚ) (n : ℕ) : rpow a n = a ^ n := by
  induction n with
  | zero => rw [rpow, pow_zero]
  | succ k ih => rw [rpow, rmul_eq, ih, pow_succ]

/-- Sanity: the day-number function agrees with the Unix epoch. -/
theorem toDayNumber_epoch : Date.toDayNumber ⟨1970, 1, 1⟩ = 0 := by decide

/-- Sanity: 2024-01-01 to 2024-07-01 spans 182 days (2024 is a leap year). -/
theorem toDayNumber_halfyear :
    Date.toDayNumber ⟨2024, 7, 1⟩ - Date.toDayNumber ⟨2024, 1, 1⟩ = 182 := by decide

/-- Sanity: 2024-01-01 to 2026-07-01 spans 912 days. -/
theorem toDayNumber_span :
    Date.toDayNumber ⟨2026, 7, 1⟩ - Date.toDayNumber ⟨2024, 1, 1⟩ = 912 := by decide

/-- Sanity: the month-start range from Jan 2024 to Jul 2029 has 67 entries. -/
theorem dateRangeMS_count :
    (dateRangeMS ⟨2024, 1, 1⟩ ⟨2029, 7, 1⟩).length = 67 := by decide

theorem rsum_eq (l : List ℚ) : rsum l = l.sum := by
  induction l with
  | nil => rfl
  | cons x xs ih => simp only [rsum, List.foldr_cons, List.sum_cons, radd_eq] at ih ⊢; rw [ih]

end Bridges

section DateOrder

theorem date_le_iff_not_lt (a b : Date) : Date.le a b ↔ ¬ Date.lt b a := by
  cases a; cases b
  simp only [Date.le, Date.lt, Date.mk.injEq]
  omega

theorem date_le_of_lt {a b : Date} (h : Date.lt a b) : Date.le a b := Or.inl h

theorem date_not_lt_of_le {a b : Date} (h : Date.le a b) : ¬ Date.lt b a :=
  (date_le_iff_not_lt a b).mp h

theorem date_le_total (a b : Date) : Date.le a b ∨ Date.le b a := by
  cases a; cases b
  simp only [Date.le, Date.lt, Date.mk.injEq]
  omega

end DateOrder

section ScheduleIndexing

theorem rollOn_length (cfg : Config) (prev : Option Row) (l : List Date) :
    (rollOn cfg prev l).length = l.length := by
  induction l generalizing prev with
  | nil => rfl
  | cons d ds ih => simp only [rollOn, List.length_cons, ih]

theorem scheduleStep_date (cfg : Config) (prev : Option Row) (d : Date) :
    (scheduleStep cfg prev d).date = d := rfl

theorem rollOn_cons (cfg : Config) (prev : Option Row) (d : Date) (ds : List Date) :
    rollOn cfg prev (d :: ds) =
      scheduleStep cfg prev d :: rollOn cfg (some (scheduleStep cfg prev d)) ds := rfl

theorem rollOn_get_succ (cfg : Config) (l : List Date) (prev : Option Row) (i : ℕ)
    (h1 : i + 1 < (rollOn cfg prev l).length) (h2 : i < (rollOn cfg prev l).length)
    (h3 : i + 1 < l.length) :
    (rollOn cfg prev l).get ⟨i + 1, h1⟩ =
      scheduleStep cfg (some ((rollOn cfg prev l).get ⟨i, h2⟩)) (l.get ⟨i + 1, h3⟩) := by
  induction l generalizing prev i with
  | nil => exact absurd h3 (by simp)
  | cons d ds ih =>
    cases i with
    | zero =>
      cases ds with
      | nil => exact absurd h3 (by simp)
      | cons d' ds' => rfl
    | succ j =>
      have h1' : j + 1 < (rollOn cfg (some (scheduleStep cfg prev d)) ds).length := by
        simpa [rollOn_cons] using h1
      have h2' : j < (rollOn cfg (some (scheduleStep cfg prev d)) ds).length := by
        simpa [rollOn_cons] using h2
      have h3' : j + 1 < ds.length := by simpa using h3
      simpa [rollOn_cons] using ih (some (scheduleStep cfg prev d)) j h1' h2' h3'

theorem rollOn_get_date (cfg : Config) (l : List Date) (prev : Option Row) (i : ℕ)
    (h1 : i < (rollOn cfg prev l).length) (h3 : i < l.length) :
    ((rollOn cfg prev l).get ⟨i, h1⟩).date = l.get ⟨i, h3⟩ := by
  induction l generalizing prev i with
  | nil => exact absurd h3 (by simp)
  | cons d ds ih =>
    cases i with
    | zero => rfl
    | succ j =>
      have h1' : j < (rollOn cfg (some (scheduleStep cfg prev d)) ds).length := by
        simpa [rollOn_cons] using h1
      have h3' : j < ds.length := by simpa using h3
      simpa [rollOn_cons] using ih (some (scheduleStep cfg prev d)) j h1' h3'

theorem dateRangeMS_get (start stop : Date) (i : ℕ) (h : i < (dateRangeMS start stop).length) :
    (dateRangeMS start stop).get ⟨i, h⟩ = monthStart (rangeStartIndex start + Int.ofNat i) := by
  simp only [dateRangeMS] at h ⊢
  rw [List.get_eq_getElem, List.getElem_map, List.getElem_range]

theorem rollOn_get_zero (cfg : Config) (l : List Date) (prev : Option Row)
    (h1 : 0 < (rollOn cfg prev l).length) (h3 : 0 < l.length) :
    (rollOn cfg prev l).get ⟨0, h1⟩ = scheduleStep cfg prev (l.get ⟨0, h3⟩) := by
  cases l with
  | nil => exact absurd h3 (by simp)
  | cons d ds => rfl

end ScheduleIndexing

section StepCharacterization

theorem date_not_le_of_lt {a b : Date} (h : Date.lt a b) : ¬ Date.le b a :=
  fun hle => date_not_lt_of_le hle h

/-- In a production month, the loan columns of the row are the fields of
`_calculate_loan_balance`. -/
theorem scheduleStep_loanFields (cfg : Config) (prev : Option Row) (date : Date)
    (h : Date.le cfg.firstProductionDate date) :
    (scheduleStep cfg prev date).loan_balance = (calculateLoanBalance cfg date prev).new_balance ∧
    (scheduleStep cfg prev date).loan_monthly_production =
      (calculateLoanBalance cfg date prev).monthly_production ∧
    (scheduleStep cfg prev date).loan_prepayment_amount =
      (calculateLoanBalance cfg date prev).prepayment_amount ∧
    (scheduleStep cfg prev date).loan_scheduled_amortization =
      (calculateLoanBalance cfg date prev).scheduled_amortization := by
  dsimp only [scheduleStep]
  rw [if_pos h]
  exact ⟨rfl, rfl, rfl, rfl⟩

/-- The production-month rollforward case of `_calculate_loan_balance`. -/
theorem calculateLoanBalance_roll (cfg : Config) (d : Date) (p : Row)
    (hd : ¬ Date.lt d cfg.firstProductionDate) (hp : ¬ Date.lt p.date cfg.firstProductionDate) :
    calculateLoanBalance cfg d (some p) =
      ⟨monthlyLoanProduction cfg (productionYearIndex cfg d),
       rmul p.loan_balance (rdiv cfg.prepayPercentageOfBalance 12),
       rdiv p.loan_balance (rmul cfg.averageLifeLoans 12),
       radd (rsub (rsub p.loan_balance (rmul p.loan_balance (rdiv cfg.prepayPercentageOfBalance 12)))
           (rdiv p.loan_balance (rmul cfg.averageLifeLoans 12)))
         (monthlyLoanProduction cfg (productionYearIndex cfg d))⟩ := by
  simp only [calculateLoanBalance, if_neg hd, if_neg hp]

/-- The first-production-month case of `_calculate_loan_balance` (`i == 0`). -/
theorem calculateLoanBalance_first_none (cfg : Config) (d : Date)
    (hd : ¬ Date.lt d cfg.firstProductionDate) :
    calculateLoanBalance cfg d none =
      ⟨monthlyLoanProduction cfg (productionYearIndex cfg d), 0, 0,
       monthlyLoanProduction cfg (productionYearIndex cfg d)⟩ := by
  simp only [calculateLoanBalance, if_neg hd]

/-- The first-production-month case of `_calculate_loan_balance`
(`df.index[i-1] < first_production_date`). -/
theorem calculateLoanBalance_first_some (cfg : Config) (d : Date) (p : Row)
    (hd : ¬ Date.lt d cfg.firstProductionDate) (hp : Date.lt p.date cfg.firstProductionDate) :
    calculateLoanBalance cfg d (some p) =
      ⟨monthlyLoanProduction cfg (productionYearIndex cfg d), 0, 0,
       monthlyLoanProduction cfg (productionYearIndex cfg d)⟩ := by
  simp only [calculateLoanBalance, if_neg hd, if_pos hp]

end StepCharacterization

section ClaimC1

/-- Claim C1: for every production month whose previous month is also a
production month, the loan balance satisfies the rollforward recurrence
`balance = prior − prepayment − scheduledAmortization + monthlyProduction`,
with `monthlyProduction = annualProduction[min(monthsSinceProduction // 12, 4)].loans / 12`,
`prepayment = prior × (prepayPct / 12)` and
`scheduledAmortization = prior / (averageLifeLoans × 12)`; in a first
production month (index 0, or previous month pre-production) the prior
balance is 0, prepayment and scheduled amortization are 0, and the new
balance equals the monthly production. -/
theorem loan_balance_rollforward (cfg : Config) (i : ℕ)
    (h1 : i + 1 < (generateMonthlySchedule cfg).length)
    (h2 : i < (generateMonthlySchedule cfg).length)
    (r p : Row)
    (hr : (generateMonthlySchedule cfg).get ⟨i + 1, h1⟩ = r)
    (hp : (generateMonthlySchedule cfg).get ⟨i, h2⟩ = p)
    (hcur : Date.le cfg.firstProductionDate r.date) :
    (Date.le cfg.firstProductionDate p.date →
      r.loan_monthly_production =
          (cfg.annualProduction (productionYearIndex cfg r.date)).loans / 12 ∧
      r.loan_prepayment_amount = p.loan_balance * (cfg.prepayPercentageOfBalance / 12) ∧
      r.loan_scheduled_amortization = p.loan_balance / (cfg.averageLifeLoans * 12) ∧
      r.loan_balance = p.loan_balance - r.loan_prepayment_amount -
          r.loan_scheduled_amortization + r.loan_monthly_production) ∧
    (Date.lt p.date cfg.firstProductionDate →
      r.loan_prepayment_amount = 0 ∧
      r.loan_scheduled_amortization = 0 ∧
      r.loan_balance = r.loan_monthly_production ∧
      r.loan_monthly_production =
        (cfg.annualProduction (productionYearIndex cfg r.date)).loans / 12) := by
  subst hr hp
  simp only [generateMonthlySchedule] at h1 h2 hcur ⊢
  have h3 : i + 1 < (scheduleDates cfg).length := by
    rw [← rollOn_length cfg none (scheduleDates cfg)]; exact h1
  have hstep := rollOn_get_succ cfg (scheduleDates cfg) none i h1 h2 h3
  set p := (rollOn cfg none (scheduleDates cfg)).get ⟨i, h2⟩ with hpdef
  set d := (scheduleDates cfg).get ⟨i + 1, h3⟩ with hddef
  rw [hstep] at hcur ⊢
  rw [scheduleStep_date] at hcur
  have hnd : ¬ Date.lt d cfg.firstProductionDate := date_not_lt_of_le hcur
  obtain ⟨e1, e2, e3, e4⟩ := scheduleStep_loanFields cfg (some p) d hcur
  constructor
  · intro hple
    have hnp : ¬ Date.lt p.date cfg.firstProductionDate := date_not_lt_of_le hple
    rw [e1, e2, e3, e4, calculateLoanBalance_roll cfg d p hnd hnp]
    refine ⟨?_, ?_, ?_, ?_⟩ <;>
      simp [monthlyLoanProduction, scheduleStep_date, radd_eq, rsub_eq, rmul_eq, rdiv_eq]
  · intro hplt
    rw [e1, e2, e3, e4, calculateLoanBalance_first_some cfg d p hnd hplt]
    refine ⟨rfl, rfl, rfl, ?_⟩
    simp [monthlyLoanProduction, scheduleStep_date, rdiv_eq]

/-- Witness for C1 at the §8 scenario, month index 7 (August 2024), whose
previous month (July 2024) is the first production month. -/
theorem loan_balance_rollforward_witness :
    Date.le cfg7.firstProductionDate
      (((generateMonthlySchedule cfg7).get ⟨7, by decide⟩).date) ∧
    Date.le cfg7.firstProductionDate
      (((generateMonthlySchedule cfg7).get ⟨6, by decide⟩).date) ∧
    ((generateMonthlySchedule cfg7).get ⟨7, by decide⟩).loan_balance =
      ((generateMonthlySchedule cfg7).get ⟨6, by decide⟩).loan_balance -
        ((generateMonthlySchedule cfg7).get ⟨7, by decide⟩).loan_prepayment_amount -
        ((generateMonthlySchedule cfg7).get ⟨7, by decide⟩).loan_scheduled_amortization +
        ((generateMonthlySchedule cfg7).get ⟨7, by decide⟩).loan_monthly_production := by
  have h := loan_balance_rollforward cfg7 6 (by decide) (by decide)
    ((generateMonthlySchedule cfg7).get ⟨7, by decide⟩)
    ((generateMonthlySchedule cfg7).get ⟨6, by decide⟩) rfl rfl (by decide)
  exact ⟨by decide, by decide, (h.1 (by decide)).2.2.2⟩

end ClaimC1

section ClaimC2

/-- Counterexample for C2 as stated: at the §8 scenario, the 2024 annual
summary row's `loan_balance` is NOT the arithmetic mean of that year's 12
monthly balances — `resample('A').sum()` sums balance columns like every
other column. -/
theorem annual_summary_not_mean :
    ¬ (((annualSummary (generateMonthlySchedule cfg7)).get ⟨0, by decide⟩).loan_balance =
      (((generateMonthlySchedule cfg7).filter (fun r => r.date.year == 2024)).map
          Row.loan_balance).sum / 12) := by
  simp only [← rsum_eq, ← rdiv_eq]
  decide

/-- Claim C2, amended: `_generate_annual_summary` is
`monthly_schedule.resample('A').sum()`, so EVERY column of an annual summary
row — balances and ratios included, and the deferred-fee and deferred-cost
balances —
equals the SUM of that calendar year's monthly values (not the mean, and not
the year's last value). -/
theorem annual_summary_sums (rows : List Row) (k : ℕ)
    (hk : k < (annualSummary rows).length) (a : AnnualRow)
    (ha : (annualSummary rows).get ⟨k, hk⟩ = a) :
    a.loan_balance = ((rows.filter (fun r => r.date.year == a.year)).map Row.loan_balance).sum ∧
    a.line_balance = ((rows.filter (fun r => r.date.year == a.year)).map Row.line_balance).sum ∧
    a.deposit_balance =
      ((rows.filter (fun r => r.date.year == a.year)).map Row.deposit_balance).sum ∧
    a.interest_income_loans =
      ((rows.filter (fun r => r.date.year == a.year)).map Row.interest_income_loans).sum ∧
    a.interest_income_lines =
      ((rows.filter (fun r => r.date.year == a.year)).map Row.interest_income_lines).sum ∧
    a.interest_expense =
      ((rows.filter (fun r => r.date.year == a.year)).map Row.interest_expense).sum ∧
    a.non_interest_income =
      ((rows.filter (fun r => r.date.year == a.year)).map Row.non_interest_income).sum ∧
    a.non_interest_expense =
      ((rows.filter (fun r => r.date.year == a.year)).map Row.non_interest_expense).sum ∧
    a.provision_expense =
      ((rows.filter (fun r => r.date.year == a.year)).map Row.provision_expense).sum ∧
    a.net_income = ((rows.filter (fun r => r.date.year == a.year)).map Row.net_income).sum ∧
    a.origination_fees =
      ((rows.filter (fun r => r.date.year == a.year)).map Row.origination_fees).sum ∧
    a.unused_commitment_fees =
      ((rows.filter (fun r => r.date.year == a.year)).map Row.unused_commitment_fees).sum ∧
    a.salary_expense =
      ((rows.filter (fun r => r.date.year == a.year)).map Row.salary_expense).sum ∧
    a.incentive_compensation_expense =
      ((rows.filter (fun r => r.date.year == a.year)).map
        Row.incentive_compensation_expense).sum ∧
    a.benefits_expense =
      ((rows.filter (fun r => r.date.year == a.year)).map Row.benefits_expense).sum ∧
    a.discretionary_expense =
      ((rows.filter (fun r => r.date.year == a.year)).map Row.discretionary_expense).sum ∧
    a.loan_monthly_production =
      ((rows.filter (fun r => r.date.year == a.year)).map Row.loan_monthly_production).sum ∧
    a.line_monthly_production =
      ((rows.filter (fun r => r.date.year == a.year)).map Row.line_monthly_production).sum ∧
    a.deferred_origination_fees =
      ((rows.filter (fun r => r.date.year == a.year)).map Row.deferred_origination_fees).sum ∧
    a.deferred_costs =
      ((rows.filter (fun r => r.date.year == a.year)).map Row.deferred_costs).sum ∧
    a.deferred_cost_amortization =
      ((rows.filter (fun r => r.date.year == a.year)).map Row.deferred_cost_amortization).sum ∧
    a.efficiency_rat =
      osum ((rows.filter (fun r => r.date.year == a.year)).map Row.efficiency_rat) := by
  cases rows with
  | nil => exact absurd hk (by simp [annualSummary])
  | cons r0 rest =>
    have ha' : a = yearRowSum (r0 :: rest)
        (r0.date.year + Int.ofNat k) := by
      rw [← ha]
      simp only [annualSummary, List.get_eq_getElem, List.getElem_map, List.getElem_range]
    have hy : a.year = r0.date.year + Int.ofNat k := by rw [ha']; rfl
    subst ha'
    simp [hy, yearRowSum, rsum_eq]

/-- Witness for the amended C2 at the §8 scenario, annual row 0 (2024):
its `salary_expense` is the sum of the twelve monthly salary rows, 75000. -/
theorem annual_summary_sums_witness :
    ((annualSummary (generateMonthlySchedule cfg7)).get ⟨0, by decide⟩).salary_expense =
      (((generateMonthlySchedule cfg7).filter (fun r => r.date.year ==
        ((annualSummary (generateMonthlySchedule cfg7)).get ⟨0, by decide⟩).year)).map
          Row.salary_expense).sum ∧
    ((annualSummary (generateMonthlySchedule cfg7)).get ⟨0, by decide⟩).salary_expense =
      75000 := by
  have h := annual_summary_sums (generateMonthlySchedule cfg7) 0 (by decide)
    ((annualSummary (generateMonthlySchedule cfg7)).get ⟨0, by decide⟩) rfl
  exact ⟨h.2.2.2.2.2.2.2.2.2.2.2.2.1, by decide⟩

end ClaimC2

section ClaimC3

/-- C3: the code computes monthly line production as
`loans × loanVsLinePct / (100 − loanVsLinePct) / 12` with `loanVsLinePct`
stored as a FRACTION (validation divided the raw percentage by 100), not as
`loans × loanVsLinePct / (1 − loanVsLinePct) / 12` as the spec states: with
the stored fraction `0.5` and annual loan production 6,000,000 the code
produces `6000000 × 0.5 / 99.5 / 12 = 500000/199 ≈ 2512.56` per month, while
the spec's complementary-ratio formula gives `500000`. -/
theorem line_production_unit_mismatch :
    ((generateMonthlySchedule cfgC3).get ⟨0, by decide⟩).line_monthly_production =
      6000000 * ((1 : ℚ)/2) / (100 - (1 : ℚ)/2) / 12 ∧
    ((generateMonthlySchedule cfgC3).get ⟨0, by decide⟩).line_monthly_production =
      mkRat 500000 199 ∧
    ¬ (((generateMonthlySchedule cfgC3).get ⟨0, by decide⟩).line_monthly_production =
      6000000 * ((1 : ℚ)/2) / (1 - (1 : ℚ)/2) / 12) := by
  refine ⟨?_, ?_, ?_⟩ <;> (try simp only [← rmul_eq, ← rsub_eq, ← rdiv_eq]) <;> decide

end ClaimC3

section ClaimC4

/-- C4: `_initialize_yield_curves` shifts the base curve by
`goingOnYields[year]['loans'] / 100`, dividing the already-normalized
fraction by 100 again, so with raw input 3 (percent, stored as `0.03`) the
year-0 curve's rate at grid tenor 5 is `0.035 + 0.0003 = 0.0353`, not the
`0.035 + 0.03 = 0.065` the spec's "plus the fractional yield" rule gives. -/
theorem yield_curve_shift_mismatch :
    getRate cfgC4 0 5 = (35 : ℚ)/1000 + (3 : ℚ)/100/100 ∧
    getRate cfgC4 0 5 = mkRat 353 10000 ∧
    ¬ (getRate cfgC4 0 5 = (35 : ℚ)/1000 + (3 : ℚ)/100) := by
  refine ⟨?_, ?_, ?_⟩ <;> (try simp only [← radd_eq, ← rdiv_eq]) <;> decide

end ClaimC4

section ClaimC5

/-- Every schedule row is a `scheduleStep` at its date (with `prev = none`
for the first row). -/
theorem generate_get_is_step (cfg : Config) (i : ℕ)
    (h : i < (generateMonthlySchedule cfg).length)
    (h3 : i < (scheduleDates cfg).length) :
    ∃ prev : Option Row,
      (generateMonthlySchedule cfg).get ⟨i, h⟩ =
        scheduleStep cfg prev ((scheduleDates cfg).get ⟨i, h3⟩) := by
  cases i with
  | zero => exact ⟨none, rollOn_get_zero cfg (scheduleDates cfg) none h h3⟩
  | succ j =>
    have h2 : j < (generateMonthlySchedule cfg).length := Nat.lt_of_succ_lt h
    exact ⟨some ((generateMonthlySchedule cfg).get ⟨j, h2⟩),
      rollOn_get_succ cfg (scheduleDates cfg) none j h h2 h3⟩

/-- In a month with `rmHireDate ≤ date < firstProductionDate`, the
`else` branch of `_generate_monthly_schedule` zeroes every column outside
its small exclusion list — including the just-computed
`incentive_compensation_expense`. -/
theorem scheduleStep_preproduction (cfg : Config) (prev : Option Row) (date : Date)
    (hge : Date.le cfg.rmHireDate date) (hlt : Date.lt date cfg.firstProductionDate) :
    (scheduleStep cfg prev date).salary_expense =
      calculateSalaryExpense cfg (monthDiff date cfg.rmHireDate) ∧
    (scheduleStep cfg prev date).benefits_expense =
      rmul (calculateSalaryExpense cfg (monthDiff date cfg.rmHireDate)) (mkRat 28 100) ∧
    (scheduleStep cfg prev date).discretionary_expense = rdiv cfg.discretionaryExpenses 12 ∧
    (scheduleStep cfg prev date).incentive_compensation_expense = 0 ∧
    (scheduleStep cfg prev date).loan_balance = 0 ∧
    (scheduleStep cfg prev date).line_balance = 0 ∧
    (scheduleStep cfg prev date).deposit_balance = 0 ∧
    (scheduleStep cfg prev date).interest_income_loans = 0 ∧
    (scheduleStep cfg prev date).interest_income_lines = 0 ∧
    (scheduleStep cfg prev date).interest_expense = 0 ∧
    (scheduleStep cfg prev date).origination_fees = 0 ∧
    (scheduleStep cfg prev date).unused_commitment_fees = 0 ∧
    (scheduleStep cfg prev date).non_interest_income = 0 ∧
    (scheduleStep cfg prev date).deferred_origination_fees = 0 ∧
    (scheduleStep cfg prev date).deferred_costs = 0 ∧
    (scheduleStep cfg prev date).deferred_cost_amortization = 0 ∧
    (scheduleStep cfg prev date).indirect_costs = 0 ∧
    (scheduleStep cfg prev date).provision_expense = 0 := by
  have hnle : ¬ Date.le cfg.firstProductionDate date := date_not_le_of_lt hlt
  dsimp only [scheduleStep]
  simp [if_pos hge, if_neg hnle]

/-- Counterexample for C5 as stated: at the §8 scenario's first month
(2024-01-01, hired but pre-production), the code zeroes
`incentive_compensation_expense`, so the claimed accrual
`incentive = salary × incentiveCompensationPercentage` (which would be
6250 × 0.001 = 6.25 ≠ 0) does NOT hold. -/
theorem preproduction_incentive_zeroed :
    Date.le cfg7.rmHireDate (((generateMonthlySchedule cfg7).get ⟨0, by decide⟩).date) ∧
    Date.lt (((generateMonthlySchedule cfg7).get ⟨0, by decide⟩).date)
      cfg7.firstProductionDate ∧
    ((generateMonthlySchedule cfg7).get ⟨0, by decide⟩).incentive_compensation_expense = 0 ∧
    ¬ (((generateMonthlySchedule cfg7).get ⟨0, by decide⟩).incentive_compensation_expense =
      ((generateMonthlySchedule cfg7).get ⟨0, by decide⟩).salary_expense *
        cfg7.incentiveCompensationPercentage) := by
  refine ⟨?_, ?_, ?_, ?_⟩ <;> (try simp only [← rmul_eq]) <;> decide

/-- Claim C5, amended: for every month with
`rmHireDate ≤ date < firstProductionDate`, only THREE compensation-driven
expenses accrue (salary by the merit formula, benefits at 28% of salary,
and discretionary at 1/12 of the annual amount); the incentive-compensation
expense is zeroed together with every balance-sheet and income item —
loan/line/deposit balances, interest income and expense, origination and
commitment fees, non-interest income, deferred balances, deferred-cost
amortization, indirect costs, and provision all equal 0. -/
theorem hired_preproduction_state (cfg : Config) (i : ℕ)
    (h : i < (generateMonthlySchedule cfg).length) (r : Row)
    (hr : (generateMonthlySchedule cfg).get ⟨i, h⟩ = r)
    (hge : Date.le cfg.rmHireDate r.date)
    (hlt : Date.lt r.date cfg.firstProductionDate) :
    r.salary_expense =
      cfg.salary * (1 + cfg.annualMeritIncrease) ^
        ((monthDiff r.date cfg.rmHireDate).ediv 12).toNat / 12 ∧
    r.benefits_expense = r.salary_expense * (28 / 100 : ℚ) ∧
    r.discretionary_expense = cfg.discretionaryExpenses / 12 ∧
    r.incentive_compensation_expense = 0 ∧
    r.loan_balance = 0 ∧ r.line_balance = 0 ∧ r.deposit_balance = 0 ∧
    r.interest_income_loans = 0 ∧ r.interest_income_lines = 0 ∧ r.interest_expense = 0 ∧
    r.origination_fees = 0 ∧ r.unused_commitment_fees = 0 ∧ r.non_interest_income = 0 ∧
    r.deferred_origination_fees = 0 ∧ r.deferred_costs = 0 ∧
    r.deferred_cost_amortization = 0 ∧ r.indirect_costs = 0 ∧
    r.provision_expense = 0 := by
  have h3 : i < (scheduleDates cfg).length := by
    rw [← rollOn_length cfg none (scheduleDates cfg)]; exact h
  obtain ⟨prev, hstep⟩ := generate_get_is_step cfg i h h3
  rw [hstep] at hr
  subst hr
  rw [scheduleStep_date] at hge hlt
  obtain ⟨e1, e2, e3, e4, e5, e6, e7, e8, e9, e10, e11, e12, e13, e14, e15, e16, e17, e18⟩ :=
    scheduleStep_preproduction cfg prev ((scheduleDates cfg).get ⟨i, h3⟩) hge hlt
  rw [scheduleStep_date, e1, e2, e3, e4, e5, e6, e7, e8, e9, e10, e11, e12, e13, e14, e15,
    e16, e17, e18]
  refine ⟨?_, ?_, ?_, rfl, rfl, rfl, rfl, rfl, rfl, rfl, rfl, rfl, rfl, rfl, rfl, rfl, rfl, rfl⟩
  · simp [calculateSalaryExpense, radd_eq, rmul_eq, rdiv_eq, rpow_eq, add_comm]
  · simp [calculateSalaryExpense, radd_eq, rmul_eq, rdiv_eq, rpow_eq]
    norm_num
  · simp [rdiv_eq]

/-- Witness for the amended C5 at the §8 scenario's month 3 (April 2024):
hired, pre-production, salary 6250/month, benefits 1750, incentive 0. -/
theorem hired_preproduction_state_witness :
    Date.le cfg7.rmHireDate (((generateMonthlySchedule cfg7).get ⟨3, by decide⟩).date) ∧
    Date.lt (((generateMonthlySchedule cfg7).get ⟨3, by decide⟩).date)
      cfg7.firstProductionDate ∧
    ((generateMonthlySchedule cfg7).get ⟨3, by decide⟩).incentive_compensation_expense = 0 ∧
    ((generateMonthlySchedule cfg7).get ⟨3, by decide⟩).loan_balance = 0 := by
  have h := hired_preproduction_state cfg7 3 (by decide)
    ((generateMonthlySchedule cfg7).get ⟨3, by decide⟩) rfl (by decide) (by decide)
  exact ⟨by decide, by decide, h.2.2.2.1, h.2.2.2.2.1⟩

end ClaimC5

section ClaimC6

/-- Transport of `List.get` along an equality of lists. -/
theorem list_get_congr {α : Type _} {l1 l2 : List α} (h : l1 = l2) (i : ℕ)
    (h1 : i < l1.length) (h2 : i < l2.length) :
    l1.get ⟨i, h1⟩ = l2.get ⟨i, h2⟩ := by subst h; rfl

/-- Every row's `cumulative_profit` is `cumulative_income − cumulative_expenses`. -/
theorem scheduleStep_profit_eq (cfg : Config) (prev : Option Row) (d : Date) :
    (scheduleStep cfg prev d).cumulative_profit =
      rsub (scheduleStep cfg prev d).cumulative_income
        (scheduleStep cfg prev d).cumulative_expenses := rfl

/-- Each month adds exactly its `net_income` to the cumulative profit: the
`cumulative_profit` column is the running sum of the `net_income` column
(which is what `_calculate_cumulative_payback` recomputes with `cumsum`). -/
theorem scheduleStep_profit (cfg : Config) (prev : Option Row) (d : Date) :
    (scheduleStep cfg prev d).cumulative_profit =
      radd (match prev with
            | none => 0
            | some q => rsub q.cumulative_income q.cumulative_expenses)
        (scheduleStep cfg prev d).net_income := by
  cases prev <;>
    (dsimp only [scheduleStep]; simp only [radd_eq, rsub_eq, rmul_eq, rdiv_eq]; ring)

/-- If the crossing scan of `_calculate_cumulative_payback` finds nothing,
every month's cumulative profit is negative. -/
theorem findCrossing_none_spec (cfg : Config) (l : List Date) (p : Option Row) (acc : ℚ)
    (hacc : acc = (match p with
                   | none => (0 : ℚ)
                   | some q => rsub q.cumulative_income q.cumulative_expenses))
    (hnone : findCrossing acc (rollOn cfg p l) = none) :
    ∀ i (h : i < (rollOn cfg p l).length),
      ((rollOn cfg p l).get ⟨i, h⟩).cumulative_profit < 0 := by
  induction l generalizing p acc with
  | nil => intro i h; exact absurd h (by simp [rollOn])
  | cons d ds ih =>
    rw [rollOn_cons] at hnone ⊢
    have hcprofit : radd acc (scheduleStep cfg p d).net_income =
        (scheduleStep cfg p d).cumulative_profit := by
      rw [hacc]; exact (scheduleStep_profit cfg p d).symm
    by_cases hc : 0 ≤ radd acc (scheduleStep cfg p d).net_income
    · exact absurd hnone (by simp [findCrossing, if_pos hc])
    · have htail : findCrossing (radd acc (scheduleStep cfg p d).net_income)
          (rollOn cfg (some (scheduleStep cfg p d)) ds) = none := by
        simpa [findCrossing, if_neg hc] using hnone
      have hacc' : radd acc (scheduleStep cfg p d).net_income =
          (match some (scheduleStep cfg p d) with
           | none => (0 : ℚ)
           | some q => rsub q.cumulative_income q.cumulative_expenses) := by
        rw [hcprofit]; exact scheduleStep_profit_eq cfg p d
      intro i h
      cases i with
      | zero =>
        show (scheduleStep cfg p d).cumulative_profit < 0
        rw [← hcprofit]; exact lt_of_not_ge hc
      | succ j =>
        have hj : j < (rollOn cfg (some (scheduleStep cfg p d)) ds).length := by
          simpa using h
        exact ih (some (scheduleStep cfg p d)) (radd acc (scheduleStep cfg p d).net_income)
          hacc' htail j hj

/-- If the crossing scan finds a row, it is the FIRST row whose cumulative
profit is ≥ 0: every earlier month's cumulative profit is negative. -/
theorem findCrossing_some_spec (cfg : Config) (l : List Date) (p : Option Row) (acc : ℚ)
    (hacc : acc = (match p with
                   | none => (0 : ℚ)
                   | some q => rsub q.cumulative_income q.cumulative_expenses))
    (r : Row) (hsome : findCrossing acc (rollOn cfg p l) = some r) :
    ∃ i, ∃ h : i < (rollOn cfg p l).length,
      r = (rollOn cfg p l).get ⟨i, h⟩ ∧
      0 ≤ r.cumulative_profit ∧
      ∀ j (hj2 : j < (rollOn cfg p l).length), j < i →
        ((rollOn cfg p l).get ⟨j, hj2⟩).cumulative_profit < 0 := by
  induction l generalizing p acc with
  | nil => exact absurd hsome (by simp [rollOn, findCrossing])
  | cons d ds ih =>
    rw [rollOn_cons] at hsome ⊢
    have hcprofit : radd acc (scheduleStep cfg p d).net_income =
        (scheduleStep cfg p d).cumulative_profit := by
      rw [hacc]; exact (scheduleStep_profit cfg p d).symm
    by_cases hc : 0 ≤ radd acc (scheduleStep cfg p d).net_income
    · have hr : r = scheduleStep cfg p d := by
        have := hsome
        simp [findCrossing, if_pos hc] at this
        exact this.symm
      refine ⟨0, by simp, hr, ?_, ?_⟩
      · rw [hr, ← hcprofit]; exact hc
      · intro j hj2 hj; exact absurd hj (Nat.not_lt_zero j)
    · have htail : findCrossing (radd acc (scheduleStep cfg p d).net_income)
          (rollOn cfg (some (scheduleStep cfg p d)) ds) = some r := by
        simpa [findCrossing, if_neg hc] using hsome
      have hacc' : radd acc (scheduleStep cfg p d).net_income =
          (match some (scheduleStep cfg p d) with
           | none => (0 : ℚ)
           | some q => rsub q.cumulative_income q.cumulative_expenses) := by
        rw [hcprofit]; exact scheduleStep_profit_eq cfg p d
      obtain ⟨i, hi, hri, hge, hmin⟩ :=
        ih (some (scheduleStep cfg p d)) (radd acc (scheduleStep cfg p d).net_income)
          hacc' htail
      refine ⟨i + 1, by simpa using hi, hri, hge, ?_⟩
      intro j hj2 hj
      cases j with
      | zero =>
        show (scheduleStep cfg p d).cumulative_profit < 0
        rw [← hcprofit]; exact lt_of_not_ge hc
      | succ k =>
        have hk : k < (rollOn cfg (some (scheduleStep cfg p d)) ds).length := by
          simpa using hj2
        exact hmin k hk (Nat.lt_of_succ_lt_succ hj)

/-- Claim C6: `cumulativePayback` is non-null iff the monthly
cumulative-profit series reaches a value ≥ 0 within the horizon; when
non-null it equals the elapsed calendar days from the first month's date to
the first crossing month's date divided by 365.25, the cumulative profit at
the crossing index is ≥ 0, and the cumulative profit at every earlier index
is < 0. -/
theorem cumulative_payback_spec (cfg : Config) :
    (calculateCumulativePayback (generateMonthlySchedule cfg) ≠ none ↔
      ∃ i, ∃ h : i < (generateMonthlySchedule cfg).length,
        0 ≤ ((generateMonthlySchedule cfg).get ⟨i, h⟩).cumulative_profit) ∧
    ∀ y, calculateCumulativePayback (generateMonthlySchedule cfg) = some y →
      ∃ i, ∃ h : i < (generateMonthlySchedule cfg).length,
        ∃ h0 : 0 < (generateMonthlySchedule cfg).length,
        y = (((((generateMonthlySchedule cfg).get ⟨i, h⟩).date.toDayNumber -
              (((generateMonthlySchedule cfg).get ⟨0, h0⟩).date.toDayNumber)) : ℤ) : ℚ) /
            ((36525 : ℚ) / 100) ∧
        0 ≤ ((generateMonthlySchedule cfg).get ⟨i, h⟩).cumulative_profit ∧
        ∀ j (hj2 : j < (generateMonthlySchedule cfg).length), j < i →
          ((generateMonthlySchedule cfg).get ⟨j, hj2⟩).cumulative_profit < 0 := by
  have hmk : (mkRat 36525 100 : ℚ) = (36525 : ℚ) / 100 := by
    rw [Rat.mkRat_eq_div]; norm_num
  rcases hrows : generateMonthlySchedule cfg with _ | ⟨r0, rest⟩
  · constructor
    · constructor
      · intro hne
        exact absurd (by simp [calculateCumulativePayback]) hne
      · rintro ⟨i, hi, _⟩
        exact absurd hi (by simp)
    · intro y hy
      exact absurd hy (by simp [calculateCumulativePayback])
  · have hro : rollOn cfg none (scheduleDates cfg) = r0 :: rest := hrows
    constructor
    · constructor
      · intro hne
        rcases hfc : findCrossing 0 (r0 :: rest) with _ | r
        · exact absurd (by simp [calculateCumulativePayback, hfc]) hne
        · have hfc2 : findCrossing 0 (rollOn cfg none (scheduleDates cfg)) = some r := by
            rw [hro]; exact hfc
          obtain ⟨i, hi, hri, hge, _⟩ := findCrossing_some_spec cfg (scheduleDates cfg)
            none 0 rfl r hfc2
          have hi2 : i < (r0 :: rest).length := by rw [← hro]; exact hi
          refine ⟨i, hi2, ?_⟩
          rw [← list_get_congr hro i hi hi2, ← hri]
          exact hge
      · rintro ⟨i, hi, hge⟩
        rcases hfc : findCrossing 0 (r0 :: rest) with _ | r
        · have hfc2 : findCrossing 0 (rollOn cfg none (scheduleDates cfg)) = none := by
            rw [hro]; exact hfc
          have hi1 : i < (rollOn cfg none (scheduleDates cfg)).length := by
            rw [hro]; exact hi
          have hneg := findCrossing_none_spec cfg (scheduleDates cfg) none 0 rfl hfc2 i hi1
          rw [list_get_congr hro i hi1 hi] at hneg
          exact absurd hge (not_le_of_lt hneg)
        · simp [calculateCumulativePayback, hfc]
    · intro y hy
      rcases hfc : findCrossing 0 (r0 :: rest) with _ | r
      · exact absurd hy (by simp [calculateCumulativePayback, hfc])
      · have hyval : y = rdiv (((r.date.toDayNumber - r0.date.toDayNumber : ℤ) : ℚ))
            (mkRat 36525 100) := by
          have h2 : Option.map (fun q : Row =>
              rdiv (((q.date.toDayNumber - r0.date.toDayNumber : ℤ) : ℚ)) (mkRat 36525 100))
              (findCrossing 0 (r0 :: rest)) = some y := hy
          rw [hfc, Option.map_some', Option.some.injEq] at h2
          exact h2.symm
        have hfc2 : findCrossing 0 (rollOn cfg none (scheduleDates cfg)) = some r := by
          rw [hro]; exact hfc
        obtain ⟨i, hi, hri, hge, hmin⟩ := findCrossing_some_spec cfg (scheduleDates cfg)
          none 0 rfl r hfc2
        have hi2 : i < (r0 :: rest).length := by rw [← hro]; exact hi
        have h0 : 0 < (r0 :: rest).length := by simp
        have hgeti : (r0 :: rest).get ⟨i, hi2⟩ = r := by
          rw [← list_get_congr hro i hi hi2, ← hri]
        refine ⟨i, hi2, h0, ?_, ?_, ?_⟩
        · rw [hyval, rdiv_eq, hmk, hgeti]
          rfl
        · rw [hgeti]; exact hge
        · intro j hj2 hj
          have hj1 : j < (rollOn cfg none (scheduleDates cfg)).length := by
            rw [hro]; exact hj2
          have hneg := hmin j hj1 hj
          rw [list_get_congr hro j hj1 hj2] at hneg
          exact hneg

/-- Witness for C6 at the §8 scenario: the payback is 1176/487 years
(882 days from 2024-01-01 to the 2026-06-01 crossing, over 365.25), and the
crossing row satisfies the first-nonnegative-cumulative-profit property. -/
theorem cumulative_payback_spec_witness :
    calculateCumulativePayback (generateMonthlySchedule cfg7) = some (mkRat 1176 487) ∧
    (∃ i, ∃ h : i < (generateMonthlySchedule cfg7).length,
      ∃ h0 : 0 < (generateMonthlySchedule cfg7).length,
      mkRat 1176 487 = (((((generateMonthlySchedule cfg7).get ⟨i, h⟩).date.toDayNumber -
            (((generateMonthlySchedule cfg7).get ⟨0, h0⟩).date.toDayNumber)) : ℤ) : ℚ) /
          ((36525 : ℚ) / 100) ∧
      0 ≤ ((generateMonthlySchedule cfg7).get ⟨i, h⟩).cumulative_profit ∧
      ∀ j (hj2 : j < (generateMonthlySchedule cfg7).length), j < i →
        ((generateMonthlySchedule cfg7).get ⟨j, hj2⟩).cumulative_profit < 0) := by
  constructor
  · decide
  · exact (cumulative_payback_spec cfg7).2 (mkRat 1176 487) (by decide)

end ClaimC6

section ClaimC7

set_option maxHeartbeats 2000000 in
set_option maxRecDepth 40000 in
/-- Counterexample for C7 as stated: the §8 scenario's monthly schedule has
67 rows, not 66 — `pd.date_range('2024-01-01', '2029-07-01', freq='MS')`
includes BOTH endpoints, so the schedule runs Jan-2024 through Jul-2029. -/
theorem end_to_end_66_rows_false :
    (calculateProForma raw7).1.map (fun res => res.monthlySchedule.length) = Except.ok 67 ∧
    ¬ ((calculateProForma raw7).1.map (fun res => res.monthlySchedule.length) =
        Except.ok 66) := by
  constructor <;> decide

set_option maxHeartbeats 4000000 in
set_option maxRecDepth 40000 in
/-- Claim C7, amended: running `calculate_pro_forma` on the §8 raw inputs
(dates as strings, percentages as raw numbers) produces a monthly schedule
of 67 rows spanning month-starts 2024-01-01 through 2029-07-01; the first
six months have zero loan balance, the 2024-07-01 row is the first with a
non-zero `loan_balance`, equal to 500000 = 6,000,000/12, and the cumulative
payback is non-null and strictly between 0 and 5 years
(1176/487 ≈ 2.41 years: 882 days from 2024-01-01 to the 2026-06-01 crossing
divided by 365.25). -/
theorem end_to_end_scenario :
    (calculateProForma raw7).1.map (fun res => res.monthlySchedule.length) = Except.ok 67 ∧
    (calculateProForma raw7).1.map
        (fun res => (res.monthlySchedule.get? 0).map Row.date) =
      Except.ok (some ⟨2024, 1, 1⟩) ∧
    (calculateProForma raw7).1.map
        (fun res => (res.monthlySchedule.get? 66).map Row.date) =
      Except.ok (some ⟨2029, 7, 1⟩) ∧
    (calculateProForma raw7).1.map
        (fun res => (res.monthlySchedule.take 6).map Row.loan_balance) =
      Except.ok (List.replicate 6 0) ∧
    (calculateProForma raw7).1.map
        (fun res => (res.monthlySchedule.get? 6).map (fun r => (r.date, r.loan_balance))) =
      Except.ok (some (⟨2024, 7, 1⟩, 500000)) ∧
    (calculateProForma raw7).1.map (fun res => res.cumulativePayback) =
      Except.ok (some (mkRat 1176 487)) ∧
    (0 : ℚ) < mkRat 1176 487 ∧ (mkRat 1176 487 : ℚ) < 5 := by
  refine ⟨?_, ?_, ?_, ?_, ?_, ?_, ?_, ?_⟩ <;> decide

end ClaimC7

section ClaimC8

theorem date_le_of_not_lt {a b : Date} (h : ¬ Date.lt a b) : Date.le b a :=
  (date_le_iff_not_lt b a).mpr h

/-- In a pre-production month the deferred-fee balance and the recognized
fee amortization are both zeroed. -/
theorem scheduleStep_preproduction_deferred (cfg : Config) (prev : Option Row) (date : Date)
    (hlt : Date.lt date cfg.firstProductionDate) :
    (scheduleStep cfg prev date).deferred_origination_fees = 0 ∧
    (scheduleStep cfg prev date).origination_fees = 0 := by
  dsimp only [scheduleStep]
  rw [if_neg (date_not_le_of_lt hlt)]
  exact ⟨rfl, rfl⟩

/-- In a production month, the deferred-fee columns of the row are the
fields of `_calculate_deferred_fees_and_costs` (the `origination_fees`
column receives the month's total fee amortization). -/
theorem scheduleStep_deferredFields (cfg : Config) (prev : Option Row) (date : Date)
    (h : Date.le cfg.firstProductionDate date) :
    (scheduleStep cfg prev date).deferred_origination_fees =
      (calculateDeferredFeesAndCosts cfg date prev).1 ∧
    (scheduleStep cfg prev date).origination_fees =
      (calculateDeferredFeesAndCosts cfg date prev).2.2.1 := by
  dsimp only [scheduleStep]
  rw [if_pos h]
  exact ⟨rfl, rfl⟩

/-- Months produced by `monthStart` have a calendar month in 1–12. -/
theorem monthStart_month_bounds (k : ℤ) :
    1 ≤ (monthStart k).month ∧ (monthStart k).month ≤ 12 := by
  unfold monthStart
  have h1 : 0 ≤ k.emod 12 := Int.emod_nonneg k (by norm_num)
  have h2 : k.emod 12 < 12 := Int.emod_lt_of_pos k (by norm_num)
  constructor <;> simp <;> omega

/-- Every schedule date has a calendar month in 1–12. -/
theorem scheduleDates_month_bounds (cfg : Config) :
    ∀ d ∈ scheduleDates cfg, 1 ≤ d.month ∧ d.month ≤ 12 := by
  intro d hd
  simp only [scheduleDates, dateRangeMS, List.mem_map] at hd
  obtain ⟨i, _, rfl⟩ := hd
  exact monthStart_month_bounds _

/-- For a production-month date (month in range, first production date's
month in range), the clamped year index lies in 0…4. -/
theorem productionYearIndex_bounds (cfg : Config) (d : Date)
    (hge : Date.le cfg.firstProductionDate d)
    (hdm1 : 1 ≤ d.month) (hdm2 : d.month ≤ 12)
    (hfm1 : 1 ≤ cfg.firstProductionDate.month) (hfm2 : cfg.firstProductionDate.month ≤ 12) :
    0 ≤ productionYearIndex cfg d ∧ productionYearIndex cfg d ≤ 4 := by
  have hnum : 0 ≤ monthDiff d cfg.firstProductionDate := by
    rcases hge with hlt | heq
    · unfold Date.lt at hlt
      unfold monthDiff
      omega
    · rw [heq]
      unfold monthDiff
      omega
  unfold productionYearIndex
  refine ⟨le_min (Int.ediv_nonneg hnum (by norm_num)) (by norm_num), min_le_right _ _⟩

/-- Per-month bound for the deferred-fee update: when the month's effective
interest rate plus the monthly prepayment rate is at most 1 and the prior
balance is non-negative, the recognized fee amortization is at most
`prior + new` and the updated deferred-fee balance stays non-negative. -/
theorem deferred_step_bound (cfg : Config) (d : Date) (prev : Option Row)
    (hd : ¬ Date.lt d cfg.firstProductionDate)
    (horig : 0 ≤ cfg.originationFeePercentage)
    (hpp0 : 0 ≤ cfg.prepayPercentageOfBalance)
    (hprod : 0 ≤ totalProductionYear cfg (productionYearIndex cfg d))
    (heff : effectiveInterestRateYear cfg (productionYearIndex cfg d) +
      cfg.prepayPercentageOfBalance / 12 ≤ 1)
    (hprevfees : 0 ≤ prevDeferredFees cfg prev) :
    (calculateDeferredFeesAndCosts cfg d prev).2.2.1 ≤
      prevDeferredFees cfg prev +
        newOriginationFeesYear cfg (productionYearIndex cfg d) ∧
    0 ≤ (calculateDeferredFeesAndCosts cfg d prev).1 := by
  have hN : 0 ≤ newOriginationFeesYear cfg (productionYearIndex cfg d) := by
    unfold newOriginationFeesYear
    rw [rmul_eq]
    exact mul_nonneg hprod horig
  rcases prev with _ | p
  · simp only [calculateDeferredFeesAndCosts, prevDeferredFees, if_neg hd] at hprevfees ⊢
    simp only [radd_eq, rsub_eq, rmul_eq, rdiv_eq]
    norm_num
    exact hN
  · by_cases hp : Date.lt p.date cfg.firstProductionDate
    · simp only [calculateDeferredFeesAndCosts, prevDeferredFees, if_neg hd, if_pos hp]
        at hprevfees ⊢
      simp only [radd_eq, rsub_eq, rmul_eq, rdiv_eq]
      norm_num
      exact hN
    · simp only [calculateDeferredFeesAndCosts, prevDeferredFees, if_neg hd, if_neg hp]
        at hprevfees ⊢
      simp only [radd_eq, rsub_eq, rmul_eq, rdiv_eq]
      by_cases hb : (0 : ℚ) < p.loan_balance + p.line_balance
      · rw [if_pos hb, mul_div_cancel_left₀ _ (ne_of_gt hb)]
        constructor <;> nlinarith [mul_le_mul_of_nonneg_left heff hprevfees,
          mul_nonneg hprevfees hpp0]
      · rw [if_neg hb]
        constructor <;> nlinarith [mul_le_mul_of_nonneg_left heff hprevfees,
          mul_nonneg hprevfees hpp0]

/-- The deferred-fee balance of any row computed with a non-negative prior
deferred-fee state stays non-negative. -/
theorem step_deferred_nonneg (cfg : Config)
    (hfm1 : 1 ≤ cfg.firstProductionDate.month) (hfm2 : cfg.firstProductionDate.month ≤ 12)
    (horig : 0 ≤ cfg.originationFeePercentage)
    (hpp0 : 0 ≤ cfg.prepayPercentageOfBalance)
    (hprod : ∀ k : ℤ, 0 ≤ k → k ≤ 4 → 0 ≤ totalProductionYear cfg k)
    (heff : ∀ k : ℤ, 0 ≤ k → k ≤ 4 →
      effectiveInterestRateYear cfg k + cfg.prepayPercentageOfBalance / 12 ≤ 1)
    (d : Date) (prev : Option Row) (hdm1 : 1 ≤ d.month) (hdm2 : d.month ≤ 12)
    (hprev : 0 ≤ prevDeferredFees cfg prev) :
    0 ≤ (scheduleStep cfg prev d).deferred_origination_fees := by
  by_cases hlt : Date.lt d cfg.firstProductionDate
  · rw [(scheduleStep_preproduction_deferred cfg prev d hlt).1]
  · have hdle : Date.le cfg.firstProductionDate d := date_le_of_not_lt hlt
    have hbounds := productionYearIndex_bounds cfg d hdle hdm1 hdm2 hfm1 hfm2
    rw [(scheduleStep_deferredFields cfg prev d hdle).1]
    exact (deferred_step_bound cfg d prev hlt horig hpp0
      (hprod _ hbounds.1 hbounds.2) (heff _ hbounds.1 hbounds.2) hprev).2

/-- Invariant along the rollforward: with the C8 hypotheses, every row of
the schedule keeps a non-negative deferred-fee balance. -/
theorem rollOn_deferred_nonneg (cfg : Config)
    (hfm1 : 1 ≤ cfg.firstProductionDate.month) (hfm2 : cfg.firstProductionDate.month ≤ 12)
    (horig : 0 ≤ cfg.originationFeePercentage)
    (hpp0 : 0 ≤ cfg.prepayPercentageOfBalance)
    (hprod : ∀ k : ℤ, 0 ≤ k → k ≤ 4 → 0 ≤ totalProductionYear cfg k)
    (heff : ∀ k : ℤ, 0 ≤ k → k ≤ 4 →
      effectiveInterestRateYear cfg k + cfg.prepayPercentageOfBalance / 12 ≤ 1) :
    ∀ (l : List Date), (∀ d ∈ l, 1 ≤ d.month ∧ d.month ≤ 12) →
      ∀ (prev : Option Row), 0 ≤ prevDeferredFees cfg prev →
        ∀ r ∈ rollOn cfg prev l, 0 ≤ r.deferred_origination_fees := by
  intro l
  induction l with
  | nil =>
    intro _ prev _ r hr
    simp [rollOn] at hr
  | cons d ds ih =>
    intro hmonths prev hprev r hr
    rw [rollOn_cons] at hr
    rcases List.mem_cons.mp hr with hr0 | hrt
    · rw [hr0]
      exact step_deferred_nonneg cfg hfm1 hfm2 horig hpp0 hprod heff d prev
        (hmonths d (by simp)).1 (hmonths d (by simp)).2 hprev
    · refine ih (fun d' hd' => hmonths d' (List.mem_cons_of_mem d hd'))
        (some (scheduleStep cfg prev d)) ?_ r hrt
      simp only [prevDeferredFees]
      by_cases hlt : Date.lt (scheduleStep cfg prev d).date cfg.firstProductionDate
      · rw [if_pos hlt]
      · rw [if_neg hlt]
        exact step_deferred_nonneg cfg hfm1 hfm2 horig hpp0 hprod heff d prev
          (hmonths d (by simp)).1 (hmonths d (by simp)).2 hprev

/-- Claim C8, amended: the per-month fee-amortization bound
`totalFeeAmortization ≤ priorDeferredFees + newFees` (and with it the
non-negativity of the deferred-origination-fee balance) holds when — in
addition to the claim's hypotheses `originationFeePercentage ≥ 0`,
non-negative cost/prepayment inputs and `prepayPercentageOfBalance ≤ 1` —
the monthly effective-interest rate plus the monthly prepayment rate is at
most 1 (`effectiveInterestRateYear + prepayPct/12 ≤ 1`, automatic for any
realistic average loan life; without this extra bound the claim fails, see
the counterexample). -/
theorem deferred_fee_balance_bound (cfg : Config)
    (hfm1 : 1 ≤ cfg.firstProductionDate.month) (hfm2 : cfg.firstProductionDate.month ≤ 12)
    (horig : 0 ≤ cfg.originationFeePercentage)
    (_hcost : 0 ≤ cfg.deferredCostsPerLoan)
    (_hexpo : 0 ≤ cfg.avgLoanExposureAtOrigination)
    (hpp0 : 0 ≤ cfg.prepayPercentageOfBalance)
    (_hpp1 : cfg.prepayPercentageOfBalance ≤ 1)
    (hprod : ∀ k : ℤ, 0 ≤ k → k ≤ 4 → 0 ≤ totalProductionYear cfg k)
    (heff : ∀ k : ℤ, 0 ≤ k → k ≤ 4 →
      effectiveInterestRateYear cfg k + cfg.prepayPercentageOfBalance / 12 ≤ 1) :
    (∀ i (h : i < (generateMonthlySchedule cfg).length),
      0 ≤ ((generateMonthlySchedule cfg).get ⟨i, h⟩).deferred_origination_fees) ∧
    (∀ i (h1 : i + 1 < (generateMonthlySchedule cfg).length)
        (h2 : i < (generateMonthlySchedule cfg).length),
      ((generateMonthlySchedule cfg).get ⟨i + 1, h1⟩).origination_fees ≤
        ((generateMonthlySchedule cfg).get ⟨i, h2⟩).deferred_origination_fees +
          newOriginationFeesAt cfg
            (((generateMonthlySchedule cfg).get ⟨i + 1, h1⟩).date)) := by
  have hnn : ∀ i (h : i < (generateMonthlySchedule cfg).length),
      0 ≤ ((generateMonthlySchedule cfg).get ⟨i, h⟩).deferred_origination_fees := by
    intro i h
    exact rollOn_deferred_nonneg cfg hfm1 hfm2 horig hpp0 hprod heff
      (scheduleDates cfg) (scheduleDates_month_bounds cfg) none le_rfl
      _ (List.get_mem _ i h)
  refine ⟨hnn, ?_⟩
  intro i h1 h2
  simp only [generateMonthlySchedule] at h1 h2 ⊢
  have h3 : i + 1 < (scheduleDates cfg).length := by
    rw [← rollOn_length cfg none (scheduleDates cfg)]; exact h1
  have hstep := rollOn_get_succ cfg (scheduleDates cfg) none i h1 h2 h3
  set p := (rollOn cfg none (scheduleDates cfg)).get ⟨i, h2⟩ with hpdef
  set d := (scheduleDates cfg).get ⟨i + 1, h3⟩ with hddef
  have hprevEq : prevDeferredFees cfg (some p) = p.deferred_origination_fees := by
    simp only [prevDeferredFees]
    by_cases hplt : Date.lt p.date cfg.firstProductionDate
    · rw [if_pos hplt]
      have h3i : i < (scheduleDates cfg).length := by
        rw [← rollOn_length cfg none (scheduleDates cfg)]; exact h2
      obtain ⟨prev0, hstep0⟩ := generate_get_is_step cfg i h2 h3i
      have hstep0' : (rollOn cfg none (scheduleDates cfg)).get ⟨i, h2⟩ =
          scheduleStep cfg prev0 ((scheduleDates cfg).get ⟨i, h3i⟩) := hstep0
      rw [hpdef, hstep0'] at hplt ⊢
      rw [scheduleStep_date] at hplt
      exact ((scheduleStep_preproduction_deferred cfg prev0 _ hplt).1).symm
    · rw [if_neg hplt]
  have hdm := monthStart_month_bounds (rangeStartIndex cfg.rmHireDate + Int.ofNat (i + 1))
  have hdm' : 1 ≤ d.month ∧ d.month ≤ 12 := by
    rw [hddef]
    unfold scheduleDates
    rw [dateRangeMS_get]
    exact hdm
  rw [hstep, scheduleStep_date]
  by_cases hlt : Date.lt d cfg.firstProductionDate
  · rw [(scheduleStep_preproduction_deferred cfg (some p) d hlt).2]
    unfold newOriginationFeesAt
    rw [if_pos hlt]
    have hpd : 0 ≤ p.deferred_origination_fees := hnn i h2
    linarith
  · have hdle : Date.le cfg.firstProductionDate d := date_le_of_not_lt hlt
    have hbounds := productionYearIndex_bounds cfg d hdle hdm'.1 hdm'.2 hfm1 hfm2
    rw [(scheduleStep_deferredFields cfg (some p) d hdle).2]
    unfold newOriginationFeesAt
    rw [if_neg hlt]
    have hb := deferred_step_bound cfg d (some p) hlt horig hpp0
      (hprod _ hbounds.1 hbounds.2) (heff _ hbounds.1 hbounds.2)
      (by rw [hprevEq]; exact hnn i h2)
    rw [hprevEq] at hb
    exact hb.1

/-- Witness for the amended C8 at the §8 scenario (where the effective rate
is −53/800000 and the prepayment rate 0.0025/12, comfortably below 1). -/
theorem deferred_fee_balance_bound_witness :
    (1 ≤ cfg7.firstProductionDate.month ∧ cfg7.firstProductionDate.month ≤ 12 ∧
      0 ≤ cfg7.originationFeePercentage ∧ 0 ≤ cfg7.deferredCostsPerLoan ∧
      0 ≤ cfg7.avgLoanExposureAtOrigination ∧ 0 ≤ cfg7.prepayPercentageOfBalance ∧
      cfg7.prepayPercentageOfBalance ≤ 1) ∧
    (∀ k : ℤ, 0 ≤ k → k ≤ 4 → 0 ≤ totalProductionYear cfg7 k) ∧
    (∀ k : ℤ, 0 ≤ k → k ≤ 4 →
      effectiveInterestRateYear cfg7 k + cfg7.prepayPercentageOfBalance / 12 ≤ 1) ∧
    (∀ i (h : i < (generateMonthlySchedule cfg7).length),
      0 ≤ ((generateMonthlySchedule cfg7).get ⟨i, h⟩).deferred_origination_fees) := by
  have hprod : ∀ k : ℤ, 0 ≤ k → k ≤ 4 → 0 ≤ totalProductionYear cfg7 k := by
    intro k h1 h2
    interval_cases k <;> decide
  have heff : ∀ k : ℤ, 0 ≤ k → k ≤ 4 →
      effectiveInterestRateYear cfg7 k + cfg7.prepayPercentageOfBalance / 12 ≤ 1 := by
    intro k h1 h2
    interval_cases k <;> (try simp only [← rdiv_eq, ← rmul_eq, ← rsub_eq, ← radd_eq]) <;> decide
  refine ⟨by refine ⟨?_, ?_, ?_, ?_, ?_, ?_, ?_⟩ <;> decide, hprod, heff, ?_⟩
  exact (deferred_fee_balance_bound cfg7 (by decide) (by decide) (by decide) (by decide)
    (by decide) (by decide) (by decide) hprod heff).1

/-- Counterexample for C8 as stated: with the validated inputs
`originationFeePercentage = 3` (raw 300%), `averageLifeLoans = 1/12` year
(one month) and zero costs/prepayment — all satisfying the claim's stated
hypotheses — the second production month recognizes fee amortization 9,
exceeding `priorDeferredFees + newFees = 3 + 3`, and the deferred-fee
balance goes negative (−3). -/
theorem deferred_fee_amortization_unbounded :
    0 ≤ cfgC8.originationFeePercentage ∧
    0 ≤ cfgC8.deferredCostsPerLoan ∧
    0 ≤ cfgC8.prepayPercentageOfBalance ∧ cfgC8.prepayPercentageOfBalance ≤ 1 ∧
    ((generateMonthlySchedule cfgC8).get ⟨0, by decide⟩).deferred_origination_fees = 3 ∧
    newOriginationFeesAt cfgC8
      (((generateMonthlySchedule cfgC8).get ⟨1, by decide⟩).date) = 3 ∧
    ((generateMonthlySchedule cfgC8).get ⟨1, by decide⟩).origination_fees = 9 ∧
    ¬ (((generateMonthlySchedule cfgC8).get ⟨1, by decide⟩).origination_fees ≤
      ((generateMonthlySchedule cfgC8).get ⟨0, by decide⟩).deferred_origination_fees +
        newOriginationFeesAt cfgC8
          (((generateMonthlySchedule cfgC8).get ⟨1, by decide⟩).date)) ∧
    ((generateMonthlySchedule cfgC8).get ⟨1, by decide⟩).deferred_origination_fees < 0 := by
  refine ⟨?_, ?_, ?_, ?_, ?_, ?_, ?_, ?_, ?_⟩ <;>
    (try simp only [← radd_eq, ← rdiv_eq]) <;> decide

end ClaimC8

section ClaimC9

/-- Claim C9: whenever `firstProductionDate` parses to a date strictly
earlier than `rmHireDate`, model construction fails during validation with
the date-order `ValueError`, re-raised by `calculate_pro_forma` as
`"Validation error: First Production Date cannot be earlier than RM Hire
Date"`, and the result carries no projection output at all (the
monthly-schedule, annual-summary and payback computations are never
reached — the error pair is returned before any of them appears). -/
theorem validation_error_precedes_projection (m : RawInputs) (d1 d2 : Date)
    (h1 : parse_date m.rmHireDate = .ok d1)
    (h2 : parse_date m.firstProductionDate = .ok d2)
    (hlt : Date.lt d2 d1) :
    calculateProForma m =
      (Except.error
        ("Validation error: First Production Date cannot be earlier than RM Hire Date".toList),
       { m with rmHireDate := .date d1, firstProductionDate := .date d2 }) := by
  have hv : validateInputs m =
      (Except.error ("First Production Date cannot be earlier than RM Hire Date".toList),
       { m with rmHireDate := .date d1, firstProductionDate := .date d2 }) := by
    simp only [validateInputs, h1, h2, if_pos hlt]
  simp only [calculateProForma, hv, Prod.mk.injEq]
  exact ⟨by decide, trivial⟩

/-- Witness for C9: the §8 inputs with swapped date strings fail with the
date-order validation error and the dates already parsed in place. -/
theorem validation_error_precedes_projection_witness :
    parse_date rawC9.rmHireDate = .ok ⟨2024, 7, 1⟩ ∧
    parse_date rawC9.firstProductionDate = .ok ⟨2024, 1, 1⟩ ∧
    Date.lt ⟨2024, 1, 1⟩ ⟨2024, 7, 1⟩ ∧
    calculateProForma rawC9 =
      (Except.error
        ("Validation error: First Production Date cannot be earlier than RM Hire Date".toList),
       { rawC9 with rmHireDate := .date ⟨2024, 7, 1⟩,
                    firstProductionDate := .date ⟨2024, 1, 1⟩ }) :=
  ⟨by decide, by decide, by decide,
   validation_error_precedes_projection rawC9 ⟨2024, 7, 1⟩ ⟨2024, 1, 1⟩
     (by decide) (by decide) (by decide)⟩

end ClaimC9

section ClaimC10

/-- The numeric-field conversion loop touches only the six numeric fields:
every other field of the input map is left as the nested phase set it. -/
theorem numPhase_preserves (m : RawInputs) :
    ((numPhase m).2).rmHireDate = m.rmHireDate ∧
    ((numPhase m).2).firstProductionDate = m.firstProductionDate ∧
    ((numPhase m).2).loanVsLinePercentage = m.loanVsLinePercentage ∧
    ((numPhase m).2).lineUtilizationPercentage = m.lineUtilizationPercentage ∧
    ((numPhase m).2).originationFeePercentage = m.originationFeePercentage ∧
    ((numPhase m).2).unusedCommitmentFeePercentage = m.unusedCommitmentFeePercentage ∧
    ((numPhase m).2).annualMeritIncrease = m.annualMeritIncrease ∧
    ((numPhase m).2).prepayPercentageOfBalance = m.prepayPercentageOfBalance ∧
    ((numPhase m).2).incentiveCompensationPercentage = m.incentiveCompensationPercentage ∧
    ((numPhase m).2).annualProduction = m.annualProduction ∧
    ((numPhase m).2).goingOnYields = m.goingOnYields := by
  unfold numPhase vstep applyNum
  rcases h1 : parse_number m.salary with e1 | q1
  · simp [h1]
  · simp only [h1]
    rcases h2 : parse_number m.discretionaryExpenses with e2 | q2
    · simp [h2]
    · simp only [h2]
      rcases h3 : parse_number m.deferredCostsPerLoan with e3 | q3
      · simp [h3]
      · simp only [h3]
        rcases h4 : parse_number m.averageLifeLoans with e4 | q4
        · simp [h4]
        · simp only [h4]
          rcases h5 : parse_number m.averageLifeLines with e5 | q5
          · simp [h5]
          · simp only [h5]
            rcases h6 : parse_number m.avgLoanExposureAtOrigination with e6 | q6
            · simp [h6]
            · simp [h6]

/-- `calculate_pro_forma` hands the caller back exactly the input-map state
`validate_inputs` left behind (the dict object is aliased). -/
theorem calculateProForma_state (m : RawInputs) :
    (calculateProForma m).2 = (validateInputs m).2 := by
  unfold calculateProForma
  rcases hv : validateInputs m with ⟨r, m2⟩
  cases r <;> simp

/-- Claim C10: validation mutates the caller's input map in place — once
the date phase, percentage phase and nested-structure phase have run, the
date fields hold parsed date objects, every percentage field holds its value
divided by 100, and `annualProduction`/`goingOnYields` hold newly normalized
lists, REGARDLESS of whether the later numeric phase succeeds or raises; the
state handed back through `calculate_pro_forma` is that mutated map, which
differs from the original whenever e.g. a date field arrived as a string. -/
theorem validate_inputs_mutates_in_place (m : RawInputs) (d1 d2 : Date)
    (q1 q2 q3 q4 q5 q6 q7 : ℚ) (ap : List ProductionYear) (gy : List YieldYear)
    (h1 : parse_date m.rmHireDate = .ok d1)
    (h2 : parse_date m.firstProductionDate = .ok d2)
    (hord : ¬ Date.lt d2 d1)
    (hp1 : parse_percentage m.loanVsLinePercentage = .ok q1)
    (hp2 : parse_percentage m.lineUtilizationPercentage = .ok q2)
    (hp3 : parse_percentage m.originationFeePercentage = .ok q3)
    (hp4 : parse_percentage m.unusedCommitmentFeePercentage = .ok q4)
    (hp5 : parse_percentage m.annualMeritIncrease = .ok q5)
    (hp6 : parse_percentage m.prepayPercentageOfBalance = .ok q6)
    (hp7 : parse_percentage m.incentiveCompensationPercentage = .ok q7)
    (hap : parseProdList m.annualProduction = .ok ap)
    (hgy : parseYieldList m.goingOnYields = .ok gy) :
    (validateInputs m).2.rmHireDate = .date d1 ∧
    (validateInputs m).2.firstProductionDate = .date d2 ∧
    (validateInputs m).2.loanVsLinePercentage = .num q1 ∧
    (validateInputs m).2.lineUtilizationPercentage = .num q2 ∧
    (validateInputs m).2.originationFeePercentage = .num q3 ∧
    (validateInputs m).2.unusedCommitmentFeePercentage = .num q4 ∧
    (validateInputs m).2.annualMeritIncrease = .num q5 ∧
    (validateInputs m).2.prepayPercentageOfBalance = .num q6 ∧
    (validateInputs m).2.incentiveCompensationPercentage = .num q7 ∧
    (validateInputs m).2.annualProduction =
      ap.map (fun p => ⟨.num p.loans, .num p.deposits⟩) ∧
    (validateInputs m).2.goingOnYields =
      gy.map (fun p => ⟨.num p.loans, .num p.lines, .num p.deposits⟩) ∧
    (calculateProForma m).2 = (validateInputs m).2 ∧
    (∀ s, m.rmHireDate = .str s → (validateInputs m).2.rmHireDate ≠ m.rmHireDate) := by
  have hmid : validateInputs m =
      numPhase (normalizedMap m d1 d2 q1 q2 q3 q4 q5 q6 q7 ap gy) := by
    simp only [validateInputs, pctPhase, nestedPhase, vstep, applyPct, applyProd, applyYields,
      normalizedMap, h1, h2, hp1, hp2, hp3, hp4, hp5, hp6, hp7, hap, hgy, if_neg hord]
  obtain ⟨e1, e2, e3, e4, e5, e6, e7, e8, e9, e10, e11⟩ :=
    numPhase_preserves (normalizedMap m d1 d2 q1 q2 q3 q4 q5 q6 q7 ap gy)
  rw [hmid]
  refine ⟨e1, e2, e3, e4, e5, e6, e7, e8, e9, e10, e11, ?_, ?_⟩
  · rw [calculateProForma_state, hmid]
  · intro s hs
    rw [e1, hs]
    simp [normalizedMap]

/-- Witness for C10: the §8 inputs with `salary = "abc"` fail at the
numeric phase, yet the returned map already holds the parsed dates, the
percentages divided by 100 and the normalized nested lists. -/
theorem validate_inputs_mutates_in_place_witness :
    parse_date rawC10.rmHireDate = .ok ⟨2024, 1, 1⟩ ∧
    parse_percentage rawC10.loanVsLinePercentage = .ok (mkRat 5 1000) ∧
    parseProdList rawC10.annualProduction =
      .ok (List.replicate 5 ⟨6000000, 3600000⟩) ∧
    (validateInputs rawC10).1 =
      .error ("Invalid numeric value for salary: could not convert string to float".toList) ∧
    (validateInputs rawC10).2.rmHireDate = .date ⟨2024, 1, 1⟩ ∧
    (validateInputs rawC10).2.loanVsLinePercentage = .num (mkRat 5 1000) ∧
    (validateInputs rawC10).2.rmHireDate ≠ rawC10.rmHireDate := by
  have h := validate_inputs_mutates_in_place rawC10 ⟨2024, 1, 1⟩ ⟨2024, 7, 1⟩
    (mkRat 5 1000) (mkRat 5 1000) (mkRat 25 1000000) (mkRat 25 1000000)
    (mkRat 3 10000) (mkRat 25 10000) (mkRat 1 1000)
    (List.replicate 5 ⟨6000000, 3600000⟩)
    (List.replicate 5 ⟨mkRat 3 10000, mkRat 2 10000, mkRat 1 10000⟩)
    (by decide) (by decide) (by decide) (by decide) (by decide) (by decide) (by decide)
    (by decide) (by decide) (by decide) (by decide) (by decide)
  exact ⟨by decide, by decide, by decide, by decide, h.1, h.2.2.1,
    h.2.2.2.2.2.2.2.2.2.2.2.2 ("2024-01-01".toList) rfl⟩

end ClaimC10
